import Mathlib

/-!
Verification of the calibration/validation control logic of
`ease_customized_calibration.py` (infant eye-tracking calibration script).

The per-frame control loops (`manual_calibration`, `automated_calibration`)
are embedded as explicit step functions on state records.  Real-time inputs
(the clock-driven animated target width, the keyboard events, the gaze
samples) are supplied as per-frame input oracles; the closed form of the
animated width (the sin-squared oscillation) is modelled separately over ℝ
by `calibration_newsize`.  Widths and positions are modelled as rationals
where the logic only compares and adds them; the Euclidean distance and the
summary statistics, which involve square roots, are modelled over ℝ.
-/

namespace EaseCalib

/-- Python-style list read `l[i]` for possibly negative `i`
(`l[-1]` is the last element); out-of-range reads default to `0`
(the scripts never perform one on the traces we consider). -/
def pyGet (l : List ℚ) (i : Int) : ℚ :=
  if 0 ≤ i then l.getD i.toNat 0 else l.getD (l.length - (-i).toNat) 0

/-- Python-style list write `l[i] = v` for possibly negative `i`. -/
def pySet (l : List ℚ) (i : Int) (v : ℚ) : List ℚ :=
  if 0 ≤ i then l.set i.toNat v else l.set (l.length - (-i).toNat) v

/-! ### Target animation formula (lines 186-188 / 283-285 of the script) -/

/-- The `newsize` value as computed each frame:
`t = (now - target_start_time) * shrink_speed`,
`newsize = [(sin(t)**2 + calibration_target_min) * e for e in original_size]`.
`elapsed` is `now - target_start_time`. -/
noncomputable def calibration_newsize (elapsed shrink_speed target_min : ℝ)
    (orig : ℝ × ℝ) : ℝ × ℝ :=
  ((Real.sin (elapsed * shrink_speed) ^ 2 + target_min) * orig.1,
   (Real.sin (elapsed * shrink_speed) ^ 2 + target_min) * orig.2)

/-! ### Manual calibration state machine (`manual_calibration`, lines 118-220) -/

/-- A keyboard event as dispatched by the key loop of `manual_calibration`:
a numeral key carries the point index `numkey_dict[key]` it maps to
(`'0'` maps to `-1`), the collect key is `'space'`, the exit key is
`'return'`, the attention-grabber toggle is `'a'`; any other key falls
through every branch and is ignored. -/
inductive MKey where
  | num (j : Int)
  | collect
  | exit
  | attention
  | other
deriving DecidableEq, Repr

/-- Configuration shared by the manual calibration loop: the retry points
(`self.retry_points`) and the minimum possible target width
(`target_min_width`, line 142). -/
structure ManualCfg where
  retry_points : List Int
  target_min_width : ℚ
deriving DecidableEq, Repr

/-- The mutable state of the `manual_calibration` frame loop.  The fields
`collected`, `grow_plays`, `grow_stops` and `arm_events` log the external
calls (`_collect_calibration_data`, `grow_sound.play()`, `grow_sound.stop()`)
and the accepted collect-key presses. -/
structure ManualState where
  collect_when_shrunk : Bool
  allow_grow_sound : Bool
  target_is_growing : Bool
  previous_frame_width : Option ℚ
  current_point_index : Int
  in_calibration : Bool
  show_att_grabber : Bool
  stim_widths : List ℚ
  collected : List Int
  grow_plays : Nat
  grow_stops : Nat
  arm_events : Nat
deriving DecidableEq, Repr

/-- Initial state of `manual_calibration` (lines 130-150); `ws0` holds the
initial widths of the target stimuli. `main_calibration` sets
`show_att_grabber` to `False` before entry (line 95). -/
def manual_calibration_init (ws0 : List ℚ) : ManualState :=
  { collect_when_shrunk := false
    allow_grow_sound := true
    target_is_growing := false
    previous_frame_width := none
    current_point_index := -1
    in_calibration := true
    show_att_grabber := false
    stim_widths := ws0
    collected := []
    grow_plays := 0
    grow_stops := 0
    arm_events := 0 }

/-- The `for key in keys` loop (lines 154-172): numeral keys re-point
`current_point_index` (and reset the animation clock, which lives in the
width oracle), the collect key arms collection only while the current point
is in the retry set, the exit key clears `in_calibration` and `break`s out
of the key loop, the attention key toggles the grabber. -/
def manual_process_keys (cfg : ManualCfg) (s : ManualState) :
    List MKey → ManualState
  | [] => s
  | k :: rest =>
    match k with
    | .num j =>
        manual_process_keys cfg { s with current_point_index := j } rest
    | .collect =>
        if s.current_point_index ∈ cfg.retry_points then
          manual_process_keys cfg
            { s with collect_when_shrunk := true,
                     arm_events := s.arm_events + 1 } rest
        else manual_process_keys cfg s rest
    | .exit => { s with in_calibration := false }
    | .attention =>
        manual_process_keys cfg
          { s with show_att_grabber := !s.show_att_grabber } rest
    | .other => manual_process_keys cfg s rest

/-- The draw branch (lines 183-202): runs only while the current point is in
the retry set; sets the stimulus size to this frame's `newsize` width `w`,
runs the grow-sound debounce when a previous width exists, and stores `w`
as the previous width. -/
def manual_draw_phase (cfg : ManualCfg) (s : ManualState) (w : ℚ) :
    ManualState :=
  if s.current_point_index ∈ cfg.retry_points then
    let s1 := { s with
      stim_widths := pySet s.stim_widths s.current_point_index w }
    let s2 :=
      match s.previous_frame_width with
      | none => s1
      | some pw =>
        let g := decide (pw < w)
        if g && s.allow_grow_sound then
          { s1 with target_is_growing := g,
                    grow_plays := s.grow_plays + 1,
                    allow_grow_sound := false }
        else if !g && !s.allow_grow_sound then
          { s1 with target_is_growing := g,
                    grow_stops := s.grow_stops + 1,
                    allow_grow_sound := true }
        else { s1 with target_is_growing := g }
    { s2 with previous_frame_width := some w }
  else s

/-- The collection check (lines 204-219): while a collection is pending and
the current stimulus width is below twice the minimum width, collect at the
current point, then reset the point index to `-1` and clear the pending
flag.  `target_curr_width` reads the stimulus list at the (possibly `-1`)
current index, as the Python does. -/
def manual_collect_phase (cfg : ManualCfg) (s : ManualState) : ManualState :=
  if s.collect_when_shrunk = true ∧
      pyGet s.stim_widths s.current_point_index
        < 2 * cfg.target_min_width then
    { s with collected := s.collected ++ [s.current_point_index],
             current_point_index := -1,
             collect_when_shrunk := false }
  else s

/-- One iteration of the `while in_calibration` body: process the queued
keys, then either short-circuit the frame to the attention grabber
(lines 177-180) or run the draw and collection phases.  The input is the
pair of this frame's key events and this frame's animated width. -/
def manual_calibration_step (cfg : ManualCfg) (s : ManualState)
    (inp : List MKey × ℚ) : ManualState :=
  let s1 := manual_process_keys cfg s inp.1
  if s1.show_att_grabber then s1
  else manual_collect_phase cfg (manual_draw_phase cfg s1 inp.2)

/-- The `while in_calibration` loop itself: the guard is tested before each
iteration, and a body that clears `in_calibration` still finishes the
current frame. -/
def manual_calibration_run (cfg : ManualCfg) :
    List (List MKey × ℚ) → ManualState → ManualState
  | [], s => s
  | i :: is, s =>
    if s.in_calibration then
      manual_calibration_run cfg is (manual_calibration_step cfg s i)
    else s

/-! ### Automated calibration state machine (`automated_calibration`,
lines 224-337) -/

/-- Configuration of the automated loop: retry points, minimum width and
the `cycles_before_calibrate` threshold (default 2). -/
structure AutoCfg where
  retry_points : List Int
  target_min_width : ℚ
  cycles_before_calibrate : Nat
deriving DecidableEq, Repr

/-- The mutable state of the `automated_calibration` frame loop.
`pos_nums` is the queue of position numbers (`['1', ..., 'n']`), consumed
back-to-front by `pos_nums.pop()`; `activated` logs the activation order. -/
structure AutoState where
  collect_when_shrunk : Bool
  allow_grow_sound : Bool
  target_is_growing : Bool
  previous_frame_width : Option ℚ
  current_point_index : Int
  pos_nums : List Nat
  target_activated : Bool
  cycle_counter : Nat
  in_calibration : Bool
  stim_widths : List ℚ
  collected : List Int
  activated : List Int
  grow_plays : Nat
  grow_stops : Nat
deriving DecidableEq, Repr

/-- Initial state (lines 240-267): `pos_nums = [1, ..., n]` for `n`
configured points, everything else as in the manual loop. -/
def automated_calibration_init (ws0 : List ℚ) : AutoState :=
  { collect_when_shrunk := false
    allow_grow_sound := true
    target_is_growing := false
    previous_frame_width := none
    current_point_index := -1
    pos_nums := List.range' 1 ws0.length
    target_activated := false
    cycle_counter := 0
    in_calibration := true
    stim_widths := ws0
    collected := []
    activated := []
    grow_plays := 0
    grow_stops := 0 }

/-- Point activation (lines 272-277): when no target is active and the
position queue is non-empty, pop the last position number `p` and activate
point `numkey_dict[str(p)] = p - 1`. -/
def auto_activate (s : AutoState) : AutoState :=
  if s.target_activated then s
  else
    match s.pos_nums.getLast? with
    | none => s
    | some p =>
      { s with pos_nums := s.pos_nums.dropLast,
               current_point_index := (p : Int) - 1,
               target_activated := true,
               activated := s.activated ++ [(p : Int) - 1] }

/-- The automated draw branch (lines 280-313): as in the manual loop, plus
the cycle counter incremented on the debounced shrink onset and the
collection trigger armed once the counter reaches the threshold. -/
def auto_draw_phase (cfg : AutoCfg) (s : AutoState) (w : ℚ) : AutoState :=
  if s.current_point_index ∈ cfg.retry_points then
    let s1 := { s with
      stim_widths := pySet s.stim_widths s.current_point_index w }
    let s2 :=
      match s.previous_frame_width with
      | none => s1
      | some pw =>
        let g := decide (pw < w)
        if g && s.allow_grow_sound then
          { s1 with target_is_growing := g,
                    grow_plays := s.grow_plays + 1,
                    allow_grow_sound := false }
        else if !g && !s.allow_grow_sound then
          { s1 with target_is_growing := g,
                    grow_stops := s.grow_stops + 1,
                    allow_grow_sound := true,
                    cycle_counter := s.cycle_counter + 1 }
        else { s1 with target_is_growing := g }
    let s3 :=
      if cfg.cycles_before_calibrate ≤ s2.cycle_counter then
        { s2 with collect_when_shrunk := true }
      else s2
    { s3 with previous_frame_width := some w }
  else s

/-- The automated collection check (lines 316-332): additionally clears
`target_activated` and resets the cycle counter. -/
def auto_collect_phase (cfg : AutoCfg) (s : AutoState) : AutoState :=
  if s.collect_when_shrunk = true ∧
      pyGet s.stim_widths s.current_point_index
        < 2 * cfg.target_min_width then
    { s with collected := s.collected ++ [s.current_point_index],
             current_point_index := -1,
             collect_when_shrunk := false,
             target_activated := false,
             cycle_counter := 0 }
  else s

/-- End-of-frame termination check (lines 336-337): once no target is
active and the position queue is exhausted, leave the loop. -/
def auto_finish_phase (s : AutoState) : AutoState :=
  if s.target_activated = false ∧ s.pos_nums = [] then
    { s with in_calibration := false }
  else s

/-- One iteration of the automated `while in_calibration` body; the only
per-frame input is the animated width `w` (the automated loop reads no
keys). -/
def automated_calibration_step (cfg : AutoCfg) (s : AutoState) (w : ℚ) :
    AutoState :=
  auto_finish_phase (auto_collect_phase cfg (auto_draw_phase cfg
    (auto_activate s) w))

/-- The automated `while in_calibration` loop over a trace of per-frame
widths. -/
def auto_loop (cfg : AutoCfg) : List ℚ → AutoState → AutoState
  | [], s => s
  | w :: ws, s =>
    if s.in_calibration then
      auto_loop cfg ws (automated_calibration_step cfg s w)
    else s

/-- Run `automated_calibration` from its initial state. -/
def automated_calibration_run (cfg : AutoCfg) (ws0 : List ℚ)
    (inputs : List ℚ) : AutoState :=
  auto_loop cfg inputs (automated_calibration_init ws0)

/-- The debounced shrink-onset test for the state about to draw width `w`:
the draw branch runs (`current_point_index` in the retry set), a previous
width exists, and `is_growing` transitions from true to false.  Under the
debounce invariant `allow_grow_sound = !target_is_growing`, this is exactly
the code's `not target_is_growing and not allow_grow_sound` stop branch. -/
def shrink_onset_now (cfg : AutoCfg) (s : AutoState) (w : ℚ) : Bool :=
  decide (s.current_point_index ∈ cfg.retry_points) &&
    (match s.previous_frame_width with
     | none => false
     | some pw => s.target_is_growing && !(decide (pw < w)))

/-! ### Cue onset counting (spec section 8, cue debounce)

`growth_onsets prev g ws` counts the frames of the width trace `ws` on
which the `is_growing` signal transitions false-to-true, starting from
previous width `prev` and previous signal value `g`; a frame with no
previous width leaves the signal unchanged, as the code does. -/

/-- Number of growth-onset edges of the `is_growing` signal along a width
trace. -/
def growth_onsets : Option ℚ → Bool → List ℚ → Nat
  | _, _, [] => 0
  | none, g, w :: ws => growth_onsets (some w) g ws
  | some pw, g, w :: ws =>
    (if decide (pw < w) && !g then 1 else 0) +
      growth_onsets (some w) (decide (pw < w)) ws

/-- Number of shrink-onset edges of the `is_growing` signal along a width
trace. -/
def shrink_onsets : Option ℚ → Bool → List ℚ → Nat
  | _, _, [] => 0
  | none, g, w :: ws => shrink_onsets (some w) g ws
  | some pw, g, w :: ws =>
    (if !decide (pw < w) && g then 1 else 0) +
      shrink_onsets (some w) (decide (pw < w)) ws

/-! ### Validation target movement (`place_target_at_start`,
`smoothly_move_target`, lines 341-400).  The module constants
`GAZE_TARGET_X_MAX = 600` and `GAZE_TARGET_Y_MAX = 400` are parameters
`xmax`, `ymax` here. -/

/-- Direction of validation target movement. -/
inductive MoveDir where
  | LtR
  | RtL
  | TtB
  | BtT
deriving DecidableEq, Repr

/-- Function `place_target_at_start` (lines 341-361): the starting edge of each
trajectory. -/
def place_target_at_start (d : MoveDir) (xmax ymax : ℚ) : ℚ × ℚ :=
  match d with
  | .LtR => (-xmax, 0)
  | .RtL => (xmax, 0)
  | .TtB => (0, ymax)
  | .BtT => (0, -ymax)

/-- Function `smoothly_move_target` (lines 366-400): advance the target one step
and report whether it has finished moving (strict crossing of the
boundary on the moving axis). -/
def smoothly_move_target (d : MoveDir) (pos : ℚ × ℚ)
    (step_size xmax ymax : ℚ) : (ℚ × ℚ) × Bool :=
  match d with
  | .LtR =>
    let x := pos.1 + step_size
    ((x, 0), decide (xmax < x))
  | .RtL =>
    let x := pos.1 - step_size
    ((x, 0), decide (x < -xmax))
  | .TtB =>
    let y := pos.2 - step_size
    ((0, y), decide (y < -ymax))
  | .BtT =>
    let y := pos.2 + step_size
    ((0, y), decide (ymax < y))

/-- Target position and finished flag after `n` frames of
`smoothly_move_target` from the starting edge of direction `d`. -/
def smoothly_move_target_iter (d : MoveDir) (step_size xmax ymax : ℚ) :
    Nat → (ℚ × ℚ) × Bool
  | 0 => (place_target_at_start d xmax ymax, false)
  | n + 1 =>
    smoothly_move_target d
      (smoothly_move_target_iter d step_size xmax ymax n).1 step_size
      xmax ymax

/-- The boundary on the moving axis of a direction (`GAZE_TARGET_X_MAX`
for horizontal movement, `GAZE_TARGET_Y_MAX` for vertical). -/
def movement_bound (d : MoveDir) (xmax ymax : ℚ) : ℚ :=
  match d with
  | .LtR => xmax
  | .RtL => xmax
  | .TtB => ymax
  | .BtT => ymax

/-! ### Validation gaze sampling (lines 670-700).

A gaze sample is a pair of coordinates, each either present or the
`np.nan` marker (modelled as `Option ℝ`); `np.nan not in
currentGazePosition` holds exactly when both coordinates are present. -/

/-- One frame of the validation sampling logic: on a valid sample append
the Euclidean gaze-to-target distance to `dists` and a positive indicator
to `inds`; on an invalid sample append only a negative indicator. -/
noncomputable def validation_frame_sample (gaze : Option ℝ × Option ℝ)
    (target_pos : ℝ × ℝ) (dists : List ℝ) (inds : List Bool) :
    List ℝ × List Bool :=
  match gaze with
  | (some gx, some gy) =>
    (dists ++
      [Real.sqrt ((gx - target_pos.1) ^ 2 + (gy - target_pos.2) ^ 2)],
     inds ++ [true])
  | _ => (dists, inds ++ [false])

/-! ### Validation summary statistics (lines 714-728 and 780-785). -/

/-- Mean (`np.mean`) of a list of reals. -/
noncomputable def np_mean (l : List ℝ) : ℝ := l.sum / l.length

/-- Standard deviation (`np.std`, population formula, `ddof = 0`). -/
noncomputable def np_std (l : List ℝ) : ℝ :=
  Real.sqrt ((l.map (fun x => (x - np_mean l) ^ 2)).sum / l.length)

/-- A Python float summary value: either a number or the `np.nan`
missing-data marker. -/
inductive PyFloat where
  | num (x : ℝ)
  | nan

/-- The three summary variables read when `val_df` is built (lines
780-784).  A field holds `none` when the Python name is unbound (reading
it raises `NameError`); `some .nan` is the explicit missing marker. -/
structure ValidationSummary where
  mean_target_dist : Option PyFloat
  std_target_dist : Option PyFloat
  prop_on_screen : Option PyFloat

/-- The post-run summary assignment block (lines 718-728): `env` holds the
bindings before the block runs (on the first validation run all three
names are unbound).  When `dists` is non-empty both `mean_target_dist`
and `std_target_dist` are assigned; when it is empty only
`mean_target_dist` is assigned (the marker), and `std_target_dist` keeps
whatever binding it had.  `prop_on_screen` is always assigned. -/
noncomputable def validation_summary (dists : List ℝ) (inds : List Bool)
    (env : ValidationSummary) : ValidationSummary :=
  { mean_target_dist :=
      some (if dists.isEmpty then .nan else .num (np_mean dists)),
    std_target_dist :=
      if dists.isEmpty then env.std_target_dist
      else some (.num (np_std dists)),
    prop_on_screen :=
      some (if inds.isEmpty then .nan
            else .num ((inds.count true : ℝ) / inds.length)) }

/-- Whether building `val_df` (lines 780-784) succeeds: it reads all three
summary names and raises `NameError` if any is unbound. -/
def val_df_defined (env : ValidationSummary) : Bool :=
  env.mean_target_dist.isSome && env.std_target_dist.isSome &&
    env.prop_on_screen.isSome

/-! ### Concrete scenario data used by the end-to-end theorems. -/

/-- The script's configuration: 5 calibration points
(`CALINORMP`), all in the retry set on the automated (first) run,
`cycles_before_calibrate = 2`; widths are normalised so that
`target_min_width = 1`. -/
def auto_demo_cfg : AutoCfg :=
  { retry_points := [0, 1, 2, 3, 4]
    target_min_width := 1
    cycles_before_calibrate := 2 }

/-- Initial stimulus widths for the 5-point scenario. -/
def auto_demo_widths : List ℚ := [4, 4, 4, 4, 4]

/-- A width trace giving each of the 5 points two full grow/shrink cycles
and then a width below twice the minimum: five repetitions of
`[4, 5, 4, 5, 1]`. -/
def auto_demo_trace : List ℚ :=
  [4, 5, 4, 5, 1, 4, 5, 4, 5, 1, 4, 5, 4, 5, 1, 4, 5, 4, 5, 1,
   4, 5, 4, 5, 1]

/-- A width trace after which the first point's collection trigger is
armed but the target is still wide. -/
def auto_arm_trace : List ℚ := [4, 5, 4, 5, 4]

/-- One retry point, minimum width 1. -/
def manual_demo_cfg : ManualCfg :=
  { retry_points := [0]
    target_min_width := 1 }

/-- Manual state with point 0 active, fresh otherwise. -/
def manual_demo_state : ManualState :=
  { manual_calibration_init [4] with current_point_index := 0 }

/-- Manual state with point 0 active and a previous frame width of 2. -/
def manual_prev_state : ManualState :=
  { manual_demo_state with previous_frame_width := some 2 }

/-- Two retry points, minimum width 1. -/
def manual_pair_cfg : ManualCfg :=
  { retry_points := [0, 1]
    target_min_width := 1 }

/-! ## Supporting lemmas -/

lemma manual_draw_phase_log (cfg : ManualCfg) (s : ManualState) (w : ℚ) :
    (manual_draw_phase cfg s w).collected = s.collected ∧
    (manual_draw_phase cfg s w).collect_when_shrunk = s.collect_when_shrunk ∧
    (manual_draw_phase cfg s w).arm_events = s.arm_events ∧
    (manual_draw_phase cfg s w).current_point_index = s.current_point_index ∧
    (manual_draw_phase cfg s w).in_calibration = s.in_calibration ∧
    (manual_draw_phase cfg s w).show_att_grabber = s.show_att_grabber := by
  unfold manual_draw_phase
  split
  · cases s.previous_frame_width <;> simp <;> split_ifs <;> simp
  · simp

lemma manual_process_keys_inv (cfg : ManualCfg) :
    ∀ (ks : List MKey) (s : ManualState),
      s.collected.length + (if s.collect_when_shrunk then 1 else 0)
          ≤ s.arm_events →
      (manual_process_keys cfg s ks).collected.length
          + (if (manual_process_keys cfg s ks).collect_when_shrunk then 1
             else 0)
        ≤ (manual_process_keys cfg s ks).arm_events
  | [], s, h => h
  | k :: rest, s, h => by
    cases k with
    | num j => exact manual_process_keys_inv cfg rest _ (by simpa using h)
    | collect =>
      by_cases hj : s.current_point_index ∈ cfg.retry_points
      · simp only [manual_process_keys, if_pos hj]
        refine manual_process_keys_inv cfg rest _ ?_
        simp only [if_true]
        split_ifs at h <;> omega
      · simp only [manual_process_keys, if_neg hj]
        exact manual_process_keys_inv cfg rest _ h
    | exit => simpa using h
    | attention => exact manual_process_keys_inv cfg rest _ (by simpa using h)
    | other => exact manual_process_keys_inv cfg rest _ h

lemma manual_collect_phase_inv (cfg : ManualCfg) (s : ManualState)
    (h : s.collected.length + (if s.collect_when_shrunk then 1 else 0)
        ≤ s.arm_events) :
    (manual_collect_phase cfg s).collected.length
        + (if (manual_collect_phase cfg s).collect_when_shrunk then 1 else 0)
      ≤ (manual_collect_phase cfg s).arm_events := by
  unfold manual_collect_phase
  split
  · next hcond =>
    simp only [List.length_append, List.length_singleton]
    rw [hcond.1] at h
    simp at h ⊢
    omega
  · exact h

lemma manual_step_inv (cfg : ManualCfg) (s : ManualState)
    (i : List MKey × ℚ)
    (h : s.collected.length + (if s.collect_when_shrunk then 1 else 0)
        ≤ s.arm_events) :
    (manual_calibration_step cfg s i).collected.length
        + (if (manual_calibration_step cfg s i).collect_when_shrunk then 1
           else 0)
      ≤ (manual_calibration_step cfg s i).arm_events := by
  have h1 := manual_process_keys_inv cfg i.1 s h
  by_cases hatt : (manual_process_keys cfg s i.1).show_att_grabber
  · simpa [manual_calibration_step, hatt] using h1
  · have hd := manual_draw_phase_log cfg (manual_process_keys cfg s i.1) i.2
    have h2 := manual_collect_phase_inv cfg
      (manual_draw_phase cfg (manual_process_keys cfg s i.1) i.2)
      (by rw [hd.1, hd.2.1, hd.2.2.1]; exact h1)
    simpa [manual_calibration_step, hatt] using h2

lemma manual_run_inv (cfg : ManualCfg) :
    ∀ (ins : List (List MKey × ℚ)) (s : ManualState),
      s.collected.length + (if s.collect_when_shrunk then 1 else 0)
          ≤ s.arm_events →
      (manual_calibration_run cfg ins s).collected.length
          + (if (manual_calibration_run cfg ins s).collect_when_shrunk then 1
             else 0)
        ≤ (manual_calibration_run cfg ins s).arm_events
  | [], s, h => h
  | i :: is, s, h => by
    unfold manual_calibration_run
    split
    · exact manual_run_inv cfg is _ (manual_step_inv cfg s i h)
    · exact h



lemma manual_quiet_step_none (cfg : ManualCfg) (s : ManualState) (w : ℚ)
    (hatt : s.show_att_grabber = false)
    (hidx : s.current_point_index ∈ cfg.retry_points)
    (hc : s.collect_when_shrunk = false)
    (hp : s.previous_frame_width = none) :
    manual_calibration_step cfg s ([], w) =
      { s with stim_widths := pySet s.stim_widths s.current_point_index w,
               previous_frame_width := some w } := by
  simp [manual_calibration_step, manual_process_keys, manual_draw_phase,
    manual_collect_phase, hatt, hidx, hc, hp]

lemma manual_quiet_step_play (cfg : ManualCfg) (s : ManualState) (w pw : ℚ)
    (hatt : s.show_att_grabber = false)
    (hidx : s.current_point_index ∈ cfg.retry_points)
    (hc : s.collect_when_shrunk = false)
    (hp : s.previous_frame_width = some pw)
    (hg : s.target_is_growing = false)
    (hJ : s.allow_grow_sound = !s.target_is_growing)
    (hlt : pw < w) :
    manual_calibration_step cfg s ([], w) =
      { s with stim_widths := pySet s.stim_widths s.current_point_index w,
               target_is_growing := true,
               grow_plays := s.grow_plays + 1,
               allow_grow_sound := false,
               previous_frame_width := some w } := by
  simp [manual_calibration_step, manual_process_keys, manual_draw_phase,
    manual_collect_phase, hatt, hidx, hc, hp, hg, hJ, hlt]

lemma manual_quiet_step_grow (cfg : ManualCfg) (s : ManualState) (w pw : ℚ)
    (hatt : s.show_att_grabber = false)
    (hidx : s.current_point_index ∈ cfg.retry_points)
    (hc : s.collect_when_shrunk = false)
    (hp : s.previous_frame_width = some pw)
    (hg : s.target_is_growing = true)
    (hJ : s.allow_grow_sound = !s.target_is_growing)
    (hlt : pw < w) :
    manual_calibration_step cfg s ([], w) =
      { s with stim_widths := pySet s.stim_widths s.current_point_index w,
               target_is_growing := true,
               previous_frame_width := some w } := by
  simp [manual_calibration_step, manual_process_keys, manual_draw_phase,
    manual_collect_phase, hatt, hidx, hc, hp, hg, hJ, hlt]

lemma manual_quiet_step_stop (cfg : ManualCfg) (s : ManualState) (w pw : ℚ)
    (hatt : s.show_att_grabber = false)
    (hidx : s.current_point_index ∈ cfg.retry_points)
    (hc : s.collect_when_shrunk = false)
    (hp : s.previous_frame_width = some pw)
    (hg : s.target_is_growing = true)
    (hJ : s.allow_grow_sound = !s.target_is_growing)
    (hlt : ¬ pw < w) :
    manual_calibration_step cfg s ([], w) =
      { s with stim_widths := pySet s.stim_widths s.current_point_index w,
               target_is_growing := false,
               grow_stops := s.grow_stops + 1,
               allow_grow_sound := true,
               previous_frame_width := some w } := by
  simp [manual_calibration_step, manual_process_keys, manual_draw_phase,
    manual_collect_phase, hatt, hidx, hc, hp, hg, hJ, hlt]

lemma manual_quiet_step_shrink (cfg : ManualCfg) (s : ManualState) (w pw : ℚ)
    (hatt : s.show_att_grabber = false)
    (hidx : s.current_point_index ∈ cfg.retry_points)
    (hc : s.collect_when_shrunk = false)
    (hp : s.previous_frame_width = some pw)
    (hg : s.target_is_growing = false)
    (hJ : s.allow_grow_sound = !s.target_is_growing)
    (hlt : ¬ pw < w) :
    manual_calibration_step cfg s ([], w) =
      { s with stim_widths := pySet s.stim_widths s.current_point_index w,
               target_is_growing := false,
               previous_frame_width := some w } := by
  simp [manual_calibration_step, manual_process_keys, manual_draw_phase,
    manual_collect_phase, hatt, hidx, hc, hp, hg, hJ, hlt]



lemma manual_sound_run_aux (cfg : ManualCfg) :
    ∀ (ws : List ℚ) (s : ManualState),
      s.in_calibration = true →
      s.show_att_grabber = false →
      s.current_point_index ∈ cfg.retry_points →
      s.collect_when_shrunk = false →
      s.allow_grow_sound = !s.target_is_growing →
      (manual_calibration_run cfg (ws.map fun w => ([], w)) s).grow_plays
          = s.grow_plays
            + growth_onsets s.previous_frame_width s.target_is_growing ws
        ∧ (manual_calibration_run cfg (ws.map fun w => ([], w)) s).grow_stops
          = s.grow_stops
            + shrink_onsets s.previous_frame_width s.target_is_growing ws
  | [], s, _, _, _, _, _ => by
    simp [manual_calibration_run, growth_onsets, shrink_onsets]
  | w :: ws, s, h1, h2, h3, h4, h5 => by
    rw [List.map_cons]
    unfold manual_calibration_run
    rw [if_pos h1]
    rcases hp : s.previous_frame_width with _ | pw
    · rw [manual_quiet_step_none cfg s w h2 h3 h4 hp]
      have IH := manual_sound_run_aux cfg ws
        { s with stim_widths := pySet s.stim_widths s.current_point_index w,
                 previous_frame_width := some w }
        (by simpa using h1) (by simpa using h2) (by simpa using h3)
        (by simpa using h4) (by simpa using h5)
      simpa [hp, growth_onsets, shrink_onsets] using IH
    · by_cases hlt : pw < w
      · cases hg : s.target_is_growing with
        | false =>
          rw [manual_quiet_step_play cfg s w pw h2 h3 h4 hp hg h5 hlt]
          have IH := manual_sound_run_aux cfg ws
            { s with
                stim_widths := pySet s.stim_widths s.current_point_index w,
                target_is_growing := true,
                grow_plays := s.grow_plays + 1,
                allow_grow_sound := false,
                previous_frame_width := some w }
            (by simpa using h1) (by simpa using h2) (by simpa using h3)
            (by simpa using h4) (by simp)
          rw [IH.1, IH.2]
          simp [growth_onsets, shrink_onsets, hp, hlt, hg]
          omega
        | true =>
          rw [manual_quiet_step_grow cfg s w pw h2 h3 h4 hp hg h5 hlt]
          have IH := manual_sound_run_aux cfg ws
            { s with
                stim_widths := pySet s.stim_widths s.current_point_index w,
                target_is_growing := true,
                previous_frame_width := some w }
            (by simpa using h1) (by simpa using h2) (by simpa using h3)
            (by simpa using h4) (by simp [h5, hg])
          rw [IH.1, IH.2]
          simp [growth_onsets, shrink_onsets, hp, hlt, hg]
      · cases hg : s.target_is_growing with
        | true =>
          rw [manual_quiet_step_stop cfg s w pw h2 h3 h4 hp hg h5 hlt]
          have IH := manual_sound_run_aux cfg ws
            { s with
                stim_widths := pySet s.stim_widths s.current_point_index w,
                target_is_growing := false,
                grow_stops := s.grow_stops + 1,
                allow_grow_sound := true,
                previous_frame_width := some w }
            (by simpa using h1) (by simpa using h2) (by simpa using h3)
            (by simpa using h4) (by simp)
          rw [IH.1, IH.2]
          simp [growth_onsets, shrink_onsets, hp, hlt, hg]
          omega
        | false =>
          rw [manual_quiet_step_shrink cfg s w pw h2 h3 h4 hp hg h5 hlt]
          have IH := manual_sound_run_aux cfg ws
            { s with
                stim_widths := pySet s.stim_widths s.current_point_index w,
                target_is_growing := false,
                previous_frame_width := some w }
            (by simpa using h1) (by simpa using h2) (by simpa using h3)
            (by simpa using h4) (by simp [h5, hg])
          rw [IH.1, IH.2]
          simp [growth_onsets, shrink_onsets, hp, hlt, hg]



lemma auto_activate_log (s : AutoState) :
    (auto_activate s).collect_when_shrunk = s.collect_when_shrunk ∧
    (auto_activate s).cycle_counter = s.cycle_counter ∧
    (auto_activate s).collected = s.collected ∧
    (auto_activate s).allow_grow_sound = s.allow_grow_sound ∧
    (auto_activate s).target_is_growing = s.target_is_growing ∧
    (auto_activate s).previous_frame_width = s.previous_frame_width ∧
    (auto_activate s).stim_widths = s.stim_widths := by
  unfold auto_activate
  split
  · simp
  · cases s.pos_nums.getLast? <;> simp

lemma auto_draw_fields (cfg : AutoCfg) (s : AutoState) (w : ℚ) :
    (auto_draw_phase cfg s w).collected = s.collected ∧
    (auto_draw_phase cfg s w).current_point_index = s.current_point_index ∧
    (auto_draw_phase cfg s w).pos_nums = s.pos_nums ∧
    (auto_draw_phase cfg s w).target_activated = s.target_activated ∧
    (auto_draw_phase cfg s w).in_calibration = s.in_calibration := by
  unfold auto_draw_phase
  split
  · cases s.previous_frame_width <;> simp <;> split_ifs <;> simp
  · simp

lemma auto_draw_J (cfg : AutoCfg) (s : AutoState) (w : ℚ)
    (hJ : s.allow_grow_sound = !s.target_is_growing) :
    (auto_draw_phase cfg s w).allow_grow_sound
      = !(auto_draw_phase cfg s w).target_is_growing := by
  unfold auto_draw_phase
  split
  · cases hp : s.previous_frame_width with
    | none => simp [hJ] <;> split_ifs <;> simp_all
    | some pw =>
      by_cases hlt : pw < w <;> cases hg : s.target_is_growing <;>
        simp_all <;> split_ifs <;> simp_all
  · exact hJ

lemma auto_draw_counter_mono (cfg : AutoCfg) (s : AutoState) (w : ℚ) :
    s.cycle_counter ≤ (auto_draw_phase cfg s w).cycle_counter := by
  unfold auto_draw_phase
  split
  · cases hp : s.previous_frame_width with
    | none => simp <;> split_ifs <;> simp
    | some pw =>
      by_cases hlt : pw < w <;> cases hg : s.allow_grow_sound <;>
        simp_all <;> split_ifs <;> simp_all
  · exact Nat.le_refl _

lemma auto_draw_collect_source (cfg : AutoCfg) (s : AutoState) (w : ℚ) :
    (auto_draw_phase cfg s w).collect_when_shrunk = true →
      s.collect_when_shrunk = true ∨
        cfg.cycles_before_calibrate ≤ (auto_draw_phase cfg s w).cycle_counter := by
  unfold auto_draw_phase
  split
  · cases hp : s.previous_frame_width with
    | none => simp <;> split_ifs <;> simp_all
    | some pw =>
      by_cases hlt : pw < w <;> cases hg : s.allow_grow_sound <;>
        simp_all <;> split_ifs <;> simp_all
  · exact fun hc => Or.inl hc

lemma auto_draw_arm (cfg : AutoCfg) (s : AutoState) (w : ℚ)
    (h : s.collect_when_shrunk = true →
      cfg.cycles_before_calibrate ≤ s.cycle_counter) :
    (auto_draw_phase cfg s w).collect_when_shrunk = true →
      cfg.cycles_before_calibrate ≤ (auto_draw_phase cfg s w).cycle_counter := by
  intro hpost
  rcases auto_draw_collect_source cfg s w hpost with hpre | hth
  · exact le_trans (h hpre) (auto_draw_counter_mono cfg s w)
  · exact hth



lemma auto_collect_phase_cases (cfg : AutoCfg) (s : AutoState) :
    (auto_collect_phase cfg s = s ∧
      (auto_collect_phase cfg s).collected = s.collected) ∨
    (s.collect_when_shrunk = true ∧
      pyGet s.stim_widths s.current_point_index < 2 * cfg.target_min_width ∧
      (auto_collect_phase cfg s).collected
          = s.collected ++ [s.current_point_index] ∧
      (auto_collect_phase cfg s).collect_when_shrunk = false ∧
      (auto_collect_phase cfg s).cycle_counter = 0 ∧
      (auto_collect_phase cfg s).allow_grow_sound = s.allow_grow_sound ∧
      (auto_collect_phase cfg s).target_is_growing = s.target_is_growing) := by
  unfold auto_collect_phase
  split
  · next hcond => exact Or.inr ⟨hcond.1, hcond.2, by simp, by simp, by simp,
      by simp, by simp⟩
  · exact Or.inl ⟨rfl, rfl⟩

lemma auto_collect_phase_J (cfg : AutoCfg) (s : AutoState)
    (hJ : s.allow_grow_sound = !s.target_is_growing) :
    (auto_collect_phase cfg s).allow_grow_sound
      = !(auto_collect_phase cfg s).target_is_growing := by
  unfold auto_collect_phase
  split
  · simpa using hJ
  · exact hJ

lemma auto_collect_phase_arm (cfg : AutoCfg) (s : AutoState)
    (h : s.collect_when_shrunk = true →
      cfg.cycles_before_calibrate ≤ s.cycle_counter) :
    (auto_collect_phase cfg s).collect_when_shrunk = true →
      cfg.cycles_before_calibrate ≤ (auto_collect_phase cfg s).cycle_counter := by
  unfold auto_collect_phase
  split
  · simp
  · exact h

lemma auto_finish_phase_fields (s : AutoState) :
    (auto_finish_phase s).collect_when_shrunk = s.collect_when_shrunk ∧
    (auto_finish_phase s).cycle_counter = s.cycle_counter ∧
    (auto_finish_phase s).collected = s.collected ∧
    (auto_finish_phase s).allow_grow_sound = s.allow_grow_sound ∧
    (auto_finish_phase s).target_is_growing = s.target_is_growing := by
  unfold auto_finish_phase
  split <;> simp

lemma auto_step_J (cfg : AutoCfg) (s : AutoState) (w : ℚ)
    (hJ : s.allow_grow_sound = !s.target_is_growing) :
    (automated_calibration_step cfg s w).allow_grow_sound
      = !(automated_calibration_step cfg s w).target_is_growing := by
  unfold automated_calibration_step
  have ha := auto_activate_log s
  have h1 : (auto_activate s).allow_grow_sound
      = !(auto_activate s).target_is_growing := by
    rw [ha.2.2.2.1, ha.2.2.2.2.1]; exact hJ
  have h2 := auto_draw_J cfg (auto_activate s) w h1
  have h3 := auto_collect_phase_J cfg (auto_draw_phase cfg (auto_activate s) w) h2
  have hf := auto_finish_phase_fields
    (auto_collect_phase cfg (auto_draw_phase cfg (auto_activate s) w))
  rw [hf.2.2.2.1, hf.2.2.2.2]
  exact h3

lemma auto_step_arm (cfg : AutoCfg) (s : AutoState) (w : ℚ)
    (h : s.collect_when_shrunk = true →
      cfg.cycles_before_calibrate ≤ s.cycle_counter) :
    (automated_calibration_step cfg s w).collect_when_shrunk = true →
      cfg.cycles_before_calibrate
        ≤ (automated_calibration_step cfg s w).cycle_counter := by
  unfold automated_calibration_step
  have ha := auto_activate_log s
  have h1 : (auto_activate s).collect_when_shrunk = true →
      cfg.cycles_before_calibrate ≤ (auto_activate s).cycle_counter := by
    rw [ha.1, ha.2.1]; exact h
  have h2 := auto_draw_arm cfg (auto_activate s) w h1
  have h3 := auto_collect_phase_arm cfg
    (auto_draw_phase cfg (auto_activate s) w) h2
  have hf := auto_finish_phase_fields
    (auto_collect_phase cfg (auto_draw_phase cfg (auto_activate s) w))
  rw [hf.1, hf.2.1]
  exact h3

lemma auto_loop_J (cfg : AutoCfg) :
    ∀ (ws : List ℚ) (s : AutoState),
      s.allow_grow_sound = !s.target_is_growing →
      (auto_loop cfg ws s).allow_grow_sound
        = !(auto_loop cfg ws s).target_is_growing
  | [], s, h => h
  | w :: ws, s, h => by
    unfold auto_loop
    split
    · exact auto_loop_J cfg ws _ (auto_step_J cfg s w h)
    · exact h

lemma auto_loop_arm (cfg : AutoCfg) :
    ∀ (ws : List ℚ) (s : AutoState),
      (s.collect_when_shrunk = true →
        cfg.cycles_before_calibrate ≤ s.cycle_counter) →
      (auto_loop cfg ws s).collect_when_shrunk = true →
        cfg.cycles_before_calibrate ≤ (auto_loop cfg ws s).cycle_counter
  | [], s, h => h
  | w :: ws, s, h => by
    unfold auto_loop
    split
    · exact auto_loop_arm cfg ws _ (auto_step_arm cfg s w h)
    · exact h



lemma auto_draw_counter_eq (cfg : AutoCfg) (s : AutoState) (w : ℚ)
    (hJ : s.allow_grow_sound = !s.target_is_growing) :
    (auto_draw_phase cfg s w).cycle_counter
      = s.cycle_counter + (if shrink_onset_now cfg s w then 1 else 0) := by
  by_cases hretry : s.current_point_index ∈ cfg.retry_points
  · unfold auto_draw_phase
    rw [if_pos hretry]
    cases hp : s.previous_frame_width with
    | none => simp [shrink_onset_now, hp] <;> split_ifs <;> simp
    | some pw =>
      by_cases hlt : pw < w <;> cases hg : s.target_is_growing <;>
        simp_all [shrink_onset_now, hretry] <;> split_ifs <;> simp_all
  · unfold auto_draw_phase
    rw [if_neg hretry]
    simp [shrink_onset_now, hretry]

lemma auto_step_counter_eq (cfg : AutoCfg) (s : AutoState) (w : ℚ)
    (hJ : s.allow_grow_sound = !s.target_is_growing) :
    (automated_calibration_step cfg s w).cycle_counter
      = if (automated_calibration_step cfg s w).collected.length
            = s.collected.length + 1 then 0
        else s.cycle_counter
          + (if shrink_onset_now cfg (auto_activate s) w then 1 else 0) := by
  have ha := auto_activate_log s
  have hJ1 : (auto_activate s).allow_grow_sound
      = !(auto_activate s).target_is_growing := by
    rw [ha.2.2.2.1, ha.2.2.2.2.1]; exact hJ
  have hd := auto_draw_counter_eq cfg (auto_activate s) w hJ1
  have hdf := auto_draw_fields cfg (auto_activate s) w
  have hf := auto_finish_phase_fields
    (auto_collect_phase cfg (auto_draw_phase cfg (auto_activate s) w))
  unfold automated_calibration_step
  rcases auto_collect_phase_cases cfg
      (auto_draw_phase cfg (auto_activate s) w) with ⟨heq, _⟩ |
      ⟨_, _, hcol, _, hcnt, _, _⟩
  · have hclen : (auto_finish_phase (auto_collect_phase cfg
        (auto_draw_phase cfg (auto_activate s) w))).collected
          = s.collected := by
      rw [hf.2.2.1, heq, hdf.1, ha.2.2.1]
    have hcnt2 : (auto_finish_phase (auto_collect_phase cfg
        (auto_draw_phase cfg (auto_activate s) w))).cycle_counter
          = s.cycle_counter
            + (if shrink_onset_now cfg (auto_activate s) w then 1 else 0) := by
      rw [hf.2.1, heq, hd, ha.2.1]
    rw [hcnt2, hclen]
    simp
  · have hclen : (auto_finish_phase (auto_collect_phase cfg
        (auto_draw_phase cfg (auto_activate s) w))).collected
          = s.collected
            ++ [(auto_draw_phase cfg (auto_activate s) w).current_point_index] := by
      rw [hf.2.2.1, hcol, hdf.1, ha.2.2.1]
    have hcnt2 : (auto_finish_phase (auto_collect_phase cfg
        (auto_draw_phase cfg (auto_activate s) w))).cycle_counter = 0 := by
      rw [hf.2.1, hcnt]
    rw [hcnt2, hclen]
    simp



lemma iter_pos_LtR (k xm ym : ℚ) :
    ∀ n : Nat, (smoothly_move_target_iter .LtR k xm ym n).1
      = (-xm + n * k, 0)
  | 0 => by
    simp [smoothly_move_target_iter, place_target_at_start]
  | n + 1 => by
    rw [smoothly_move_target_iter, iter_pos_LtR k xm ym n]
    simp [smoothly_move_target]
    push_cast
    ring

lemma iter_pos_RtL (k xm ym : ℚ) :
    ∀ n : Nat, (smoothly_move_target_iter .RtL k xm ym n).1
      = (xm - n * k, 0)
  | 0 => by
    simp [smoothly_move_target_iter, place_target_at_start]
  | n + 1 => by
    rw [smoothly_move_target_iter, iter_pos_RtL k xm ym n]
    simp [smoothly_move_target]
    push_cast
    ring

lemma iter_pos_TtB (k xm ym : ℚ) :
    ∀ n : Nat, (smoothly_move_target_iter .TtB k xm ym n).1
      = (0, ym - n * k)
  | 0 => by
    simp [smoothly_move_target_iter, place_target_at_start]
  | n + 1 => by
    rw [smoothly_move_target_iter, iter_pos_TtB k xm ym n]
    simp [smoothly_move_target]
    push_cast
    ring

lemma iter_pos_BtT (k xm ym : ℚ) :
    ∀ n : Nat, (smoothly_move_target_iter .BtT k xm ym n).1
      = (0, -ym + n * k)
  | 0 => by
    simp [smoothly_move_target_iter, place_target_at_start]
  | n + 1 => by
    rw [smoothly_move_target_iter, iter_pos_BtT k xm ym n]
    simp [smoothly_move_target]
    push_cast
    ring

lemma iter_finished_iff (d : MoveDir) (k xm ym : ℚ)
    (hx : 0 < xm) (hy : 0 < ym) (n : Nat) :
    (smoothly_move_target_iter d k xm ym n).2 = true
      ↔ 2 * movement_bound d xm ym < n * k := by
  cases n with
  | zero =>
    cases d <;>
      simp [smoothly_move_target_iter, movement_bound] <;> linarith
  | succ n =>
    cases d
    · rw [smoothly_move_target_iter, iter_pos_LtR k xm ym n]
      simp [smoothly_move_target, movement_bound]
      constructor <;> intro h <;> push_cast at h ⊢ <;> linarith
    · rw [smoothly_move_target_iter, iter_pos_RtL k xm ym n]
      simp [smoothly_move_target, movement_bound]
      constructor <;> intro h <;> push_cast at h ⊢ <;> linarith
    · rw [smoothly_move_target_iter, iter_pos_TtB k xm ym n]
      simp [smoothly_move_target, movement_bound]
      constructor <;> intro h <;> push_cast at h ⊢ <;> linarith
    · rw [smoothly_move_target_iter, iter_pos_BtT k xm ym n]
      simp [smoothly_move_target, movement_bound]
      constructor <;> intro h <;> push_cast at h ⊢ <;> linarith

lemma direction_floor_nonneg (d : MoveDir) (k xm ym : ℚ)
    (hk : 0 < k) (hx : 0 < xm) (hy : 0 < ym) :
    0 ≤ ⌊2 * movement_bound d xm ym / k⌋ := by
  apply Int.floor_nonneg.2
  apply div_nonneg _ (le_of_lt hk)
  cases d <;> simp [movement_bound] <;> linarith

lemma direction_finish_frame (d : MoveDir) (k xm ym : ℚ)
    (hk : 0 < k) (hx : 0 < xm) (hy : 0 < ym) :
    (smoothly_move_target_iter d k xm ym
        ((⌊2 * movement_bound d xm ym / k⌋).toNat + 1)).2 = true ∧
    ∀ m, m < (⌊2 * movement_bound d xm ym / k⌋).toNat + 1 →
      (smoothly_move_target_iter d k xm ym m).2 = false := by
  have hfl := direction_floor_nonneg d k xm ym hk hx hy
  have hcast : ((⌊2 * movement_bound d xm ym / k⌋.toNat : ℚ))
      = (⌊2 * movement_bound d xm ym / k⌋ : ℚ) := by
    exact_mod_cast Int.toNat_of_nonneg hfl
  constructor
  · rw [iter_finished_iff d k xm ym hx hy]
    have h1 : 2 * movement_bound d xm ym / k
        < ⌊2 * movement_bound d xm ym / k⌋ + 1 :=
      Int.lt_floor_add_one _
    have h2 : 2 * movement_bound d xm ym / k * k = 2 * movement_bound d xm ym :=
      div_mul_cancel₀ _ (ne_of_gt hk)
    push_cast
    rw [hcast]
    nlinarith
  · intro m hm
    have hm2 : (m : ℚ) ≤ (⌊2 * movement_bound d xm ym / k⌋ : ℚ) := by
      have : (m : ℤ) ≤ ⌊2 * movement_bound d xm ym / k⌋ := by omega
      exact_mod_cast this
    have h3 : (⌊2 * movement_bound d xm ym / k⌋ : ℚ)
        ≤ 2 * movement_bound d xm ym / k := Int.floor_le _
    have h4 : (m : ℚ) * k ≤ 2 * movement_bound d xm ym := by
      have h5 : (m : ℚ) * k ≤ 2 * movement_bound d xm ym / k * k := by
        apply mul_le_mul_of_nonneg_right _ (le_of_lt hk)
        linarith
      rwa [div_mul_cancel₀ _ (ne_of_gt hk)] at h5
    have h6 := (iter_finished_iff d k xm ym hx hy m).not
    rcases hb : (smoothly_move_target_iter d k xm ym m).2 with _ | _
    · rfl
    · exact absurd ((iter_finished_iff d k xm ym hx hy m).1 hb) (by linarith)

lemma manual_collect_phase_skip (cfg : ManualCfg) (s : ManualState)
    (h : s.collect_when_shrunk = false) :
    manual_collect_phase cfg s = s := by
  unfold manual_collect_phase
  rw [if_neg (by simp [h])]

lemma manual_collect_phase_in_cal (cfg : ManualCfg) (s : ManualState) :
    (manual_collect_phase cfg s).in_calibration = s.in_calibration := by
  unfold manual_collect_phase
  split <;> simp

/-! ## Claim theorems -/

/-- C2: in automated mode the collection request is never armed before the
cycle counter has reached `cycles_before_calibrate`; the counter is
incremented exactly on the debounced shrink-onset edges and reset to zero
when a collection completes. -/
theorem automated_collection_respects_cycle_threshold (cfg : AutoCfg)
    (ws0 ws : List ℚ) (w : ℚ) :
    ((automated_calibration_run cfg ws0 ws).collect_when_shrunk = true →
      cfg.cycles_before_calibrate
        ≤ (automated_calibration_run cfg ws0 ws).cycle_counter) ∧
    ((automated_calibration_step cfg
        (automated_calibration_run cfg ws0 ws) w).cycle_counter
      = if (automated_calibration_step cfg
              (automated_calibration_run cfg ws0 ws) w).collected.length
            = (automated_calibration_run cfg ws0 ws).collected.length + 1
        then 0
        else (automated_calibration_run cfg ws0 ws).cycle_counter
          + (if shrink_onset_now cfg
                (auto_activate (automated_calibration_run cfg ws0 ws)) w
             then 1 else 0)) := by
  constructor
  · exact auto_loop_arm cfg ws (automated_calibration_init ws0)
      (fun h => absurd h (by simp [automated_calibration_init]))
  · exact auto_step_counter_eq cfg _ w
      (auto_loop_J cfg ws _ rfl)

/-- C3: in the manual loop the external collect primitive fires at most
once per accepted collection request, and a trigger happens only when the
current target width is strictly below twice the minimum width; the
trigger clears the pending flag and deactivates the point. -/
theorem collection_gate_at_most_once (cfg : ManualCfg) (ws0 : List ℚ)
    (ins : List (List MKey × ℚ)) (s : ManualState) :
    (manual_calibration_run cfg ins
        (manual_calibration_init ws0)).collected.length
      ≤ (manual_calibration_run cfg ins
          (manual_calibration_init ws0)).arm_events ∧
    (manual_collect_phase cfg s = s ∨
      (s.collect_when_shrunk = true ∧
       pyGet s.stim_widths s.current_point_index
           < 2 * cfg.target_min_width ∧
       (manual_collect_phase cfg s).collected
           = s.collected ++ [s.current_point_index] ∧
       (manual_collect_phase cfg s).collect_when_shrunk = false ∧
       (manual_collect_phase cfg s).current_point_index = -1)) := by
  constructor
  · have h := manual_run_inv cfg ins (manual_calibration_init ws0)
      (by simp [manual_calibration_init])
    split_ifs at h <;> omega
  · unfold manual_collect_phase
    split
    · next hcond =>
      exact Or.inr ⟨hcond.1, hcond.2, by simp, by simp, by simp⟩
    · exact Or.inl rfl

/-- C4: when `gaze_to_target_dists` is empty at the end of a run the code
assigns only `mean_target_dist = np.nan` and leaves `std_target_dist`
unbound, so building `val_df` fails with a `NameError` on the first run —
the spec requires both mean and std to be the missing marker.  The
proportion branch is independent and behaves as specified. -/
theorem validation_summary_empty_distances_bug :
    (validation_summary [] [true] ⟨none, none, none⟩).mean_target_dist
        = some PyFloat.nan ∧
    (validation_summary [] [true] ⟨none, none, none⟩).std_target_dist
        = none ∧
    (validation_summary [] [true] ⟨none, none, none⟩).prop_on_screen
        = some (PyFloat.num ((([true] : List Bool).count true : ℝ)
            / ([true] : List Bool).length)) ∧
    val_df_defined (validation_summary [] [true] ⟨none, none, none⟩)
        = false ∧
    (validation_summary [10] [] ⟨none, none, none⟩).prop_on_screen
        = some PyFloat.nan ∧
    (validation_summary [10] [] ⟨none, none, none⟩).mean_target_dist
        = some (PyFloat.num (np_mean [10])) :=
  ⟨rfl, rfl, rfl, rfl, rfl, rfl⟩

/-- C6: across any width trace, the number of grow-cue `play` calls never
exceeds the number of growth-onset edges and the number of `stop` calls
never exceeds the number of shrink-onset edges, thanks to the
`allow_grow_sound` debounce flag. -/
theorem cue_plays_bounded_by_onsets (cfg : ManualCfg) (s : ManualState)
    (ws : List ℚ)
    (h1 : s.in_calibration = true)
    (h2 : s.show_att_grabber = false)
    (h3 : s.current_point_index ∈ cfg.retry_points)
    (h4 : s.collect_when_shrunk = false)
    (h5 : s.allow_grow_sound = !s.target_is_growing) :
    (manual_calibration_run cfg (ws.map fun w => ([], w)) s).grow_plays
      ≤ s.grow_plays
        + growth_onsets s.previous_frame_width s.target_is_growing ws ∧
    (manual_calibration_run cfg (ws.map fun w => ([], w)) s).grow_stops
      ≤ s.grow_stops
        + shrink_onsets s.previous_frame_width s.target_is_growing ws := by
  have h := manual_sound_run_aux cfg ws s h1 h2 h3 h4 h5
  exact ⟨le_of_eq h.1, le_of_eq h.2⟩

/-- Witness for C6 at a concrete 3-frame width trace. -/
theorem cue_plays_bounded_by_onsets_witness :
    (manual_calibration_run manual_demo_cfg
        ([1, 2, 1].map fun w => (([] : List MKey), w))
        manual_demo_state).grow_plays
      ≤ manual_demo_state.grow_plays
        + growth_onsets manual_demo_state.previous_frame_width
            manual_demo_state.target_is_growing [1, 2, 1] ∧
    (manual_calibration_run manual_demo_cfg
        ([1, 2, 1].map fun w => (([] : List MKey), w))
        manual_demo_state).grow_stops
      ≤ manual_demo_state.grow_stops
        + shrink_onsets manual_demo_state.previous_frame_width
            manual_demo_state.target_is_growing [1, 2, 1] :=
  cue_plays_bounded_by_onsets manual_demo_cfg manual_demo_state [1, 2, 1]
    rfl rfl (by decide) rfl rfl

/-- C8: the rendered target size oscillates between `m` and `1 + m` times
the original size, and at elapsed time zero it equals the phase function
value at the activation time, `m` times the original size. -/
theorem calibration_newsize_bounds (t sp m w0 h0 : ℝ)
    (ht : 0 ≤ t) (hm : 0 ≤ m) (hw : 0 ≤ w0) (hh : 0 ≤ h0) :
    (m * w0 ≤ (calibration_newsize t sp m (w0, h0)).1 ∧
      (calibration_newsize t sp m (w0, h0)).1 ≤ (1 + m) * w0) ∧
    (m * h0 ≤ (calibration_newsize t sp m (w0, h0)).2 ∧
      (calibration_newsize t sp m (w0, h0)).2 ≤ (1 + m) * h0) ∧
    calibration_newsize 0 sp m (w0, h0) = (m * w0, m * h0) := by
  have hs1 : Real.sin (t * sp) ^ 2 ≤ 1 := Real.sin_sq_le_one _
  have hs0 : 0 ≤ Real.sin (t * sp) ^ 2 := sq_nonneg _
  unfold calibration_newsize
  dsimp only
  refine ⟨⟨?_, ?_⟩, ⟨?_, ?_⟩, ?_⟩
  · nlinarith
  · nlinarith
  · nlinarith
  · nlinarith
  · simp [Real.sin_zero]

/-- Witness for C8 at `t = 1`, `sp = 2`, `m = 1/2`, size `(2, 3)`. -/
theorem calibration_newsize_bounds_witness :
    ((1/2 * 2 ≤ (calibration_newsize 1 2 (1/2) ((2:ℝ), 3)).1 ∧
      (calibration_newsize 1 2 (1/2) ((2:ℝ), 3)).1 ≤ (1 + 1/2) * 2) ∧
     (1/2 * 3 ≤ (calibration_newsize 1 2 (1/2) ((2:ℝ), 3)).2 ∧
      (calibration_newsize 1 2 (1/2) ((2:ℝ), 3)).2 ≤ (1 + 1/2) * 3) ∧
     calibration_newsize 0 2 (1/2) ((2:ℝ), 3) = (1/2 * 2, 1/2 * 3)) :=
  calibration_newsize_bounds 1 2 (1/2) 2 3 (by norm_num) (by norm_num)
    (by norm_num) (by norm_num)

/-- C10: each validation frame appends the Euclidean gaze-to-target
distance and a positive on-screen indicator when the sample has both
coordinates, and appends only a negative indicator when it does not: the
two sequences are maintained independently. -/
theorem validation_sample_branches (gaze : Option ℝ × Option ℝ)
    (tp : ℝ × ℝ) (dists : List ℝ) (inds : List Bool) :
    (∀ gx gy, gaze = (some gx, some gy) →
      validation_frame_sample gaze tp dists inds
        = (dists ++ [Real.sqrt ((gx - tp.1) ^ 2 + (gy - tp.2) ^ 2)],
           inds ++ [true])) ∧
    ((gaze.1 = none ∨ gaze.2 = none) →
      validation_frame_sample gaze tp dists inds
        = (dists, inds ++ [false])) := by
  obtain ⟨gx, gy⟩ := gaze
  constructor
  · rintro a b h
    injection h with h1 h2
    subst h1
    subst h2
    rfl
  · intro h
    rcases gx with _ | a
    · cases gy <;> rfl
    · rcases gy with _ | b
      · rfl
      · exfalso
        rcases h with h | h <;> simp at h

/-- Witness for C10: one valid and one invalid concrete sample. -/
theorem validation_sample_branches_witness :
    validation_frame_sample (some 3, some 4) ((0:ℝ), (0:ℝ)) [] []
      = ([Real.sqrt ((3 - ((0:ℝ), (0:ℝ)).1) ^ 2
            + (4 - ((0:ℝ), (0:ℝ)).2) ^ 2)], [true]) ∧
    validation_frame_sample ((none : Option ℝ), some 1) ((0:ℝ), (0:ℝ)) [] []
      = ([], [false]) :=
  ⟨(validation_sample_branches (some 3, some 4) ((0:ℝ), (0:ℝ)) [] []).1
      3 4 rfl,
   (validation_sample_branches ((none : Option ℝ), some 1)
      ((0:ℝ), (0:ℝ)) [] []).2 (Or.inl rfl)⟩

/-- C5 (amended): the exit key terminates the loop at the end of the frame
on which it is received, but the remainder of that frame still executes,
so a pending collection request whose width condition holds on that frame
completes before exit; if no request is pending nothing is collected on
the exit frame.  Switching to another point does not discard a pending
request: it carries over to the newly selected point. -/
theorem manual_exit_frame_behavior (cfg : ManualCfg) (s : ManualState)
    (w : ℚ) (j : Int) (hatt : s.show_att_grabber = false) :
    (manual_calibration_step cfg s ([.exit], w)).in_calibration = false ∧
    (s.collect_when_shrunk = false →
      (manual_calibration_step cfg s ([.exit], w)).collected
        = s.collected) ∧
    (manual_process_keys cfg s [.num j]).collect_when_shrunk
        = s.collect_when_shrunk ∧
    (manual_process_keys cfg s [.num j]).current_point_index = j := by
  have hk : manual_process_keys cfg s [.exit]
      = { s with in_calibration := false } := rfl
  have hstep : manual_calibration_step cfg s ([.exit], w)
      = manual_collect_phase cfg
          (manual_draw_phase cfg { s with in_calibration := false } w) := by
    simp [manual_calibration_step, hk, hatt]
  refine ⟨?_, ?_, rfl, rfl⟩
  · rw [hstep, manual_collect_phase_in_cal cfg
      (manual_draw_phase cfg { s with in_calibration := false } w)]
    have hd := manual_draw_phase_log cfg { s with in_calibration := false } w
    rw [hd.2.2.2.2.1]
  · intro hcw
    rw [hstep]
    have hd := manual_draw_phase_log cfg { s with in_calibration := false } w
    rw [manual_collect_phase_skip cfg _ (by rw [hd.2.1]; exact hcw), hd.1]

/-- Witness for C5 (amended) at a concrete state with no pending
request. -/
theorem manual_exit_frame_behavior_witness :
    (manual_calibration_step manual_demo_cfg manual_demo_state
        ([.exit], 3)).in_calibration = false ∧
    (manual_calibration_step manual_demo_cfg manual_demo_state
        ([.exit], 3)).collected = manual_demo_state.collected ∧
    (manual_process_keys manual_demo_cfg manual_demo_state
        [.num 0]).collect_when_shrunk
      = manual_demo_state.collect_when_shrunk :=
  ⟨(manual_exit_frame_behavior manual_demo_cfg manual_demo_state 3 0
      rfl).1,
   (manual_exit_frame_behavior manual_demo_cfg manual_demo_state 3 0
      rfl).2.1 rfl,
   (manual_exit_frame_behavior manual_demo_cfg manual_demo_state 3 0
      rfl).2.2.1⟩

/-- C7 (amended): activating a new point resets only the animation start
time; `previous_frame_width` persists across the activation change, so on
the first frame of the newly activated point growth detection compares
the carried-over width with the new width. -/
theorem previous_width_persists_across_activation (cfg : ManualCfg)
    (s : ManualState) (j : Int) (w pw : ℚ)
    (hp : s.previous_frame_width = some pw) :
    (manual_process_keys cfg s [.num j]).previous_frame_width = some pw ∧
    (j ∈ cfg.retry_points →
      (manual_draw_phase cfg
          (manual_process_keys cfg s [.num j]) w).target_is_growing
        = decide (pw < w)) := by
  have hk : manual_process_keys cfg s [.num j]
      = { s with current_point_index := j } := rfl
  refine ⟨by rw [hk]; exact hp, ?_⟩
  intro hj
  rw [hk]
  unfold manual_draw_phase
  rw [if_pos (by simpa using hj)]
  simp only [hp]
  split_ifs <;> simp

/-- Witness for C7 (amended) at a concrete state carrying width 2. -/
theorem previous_width_persists_witness :
    (manual_process_keys manual_demo_cfg manual_prev_state
        [MKey.num 0]).previous_frame_width = some 2 ∧
    (manual_draw_phase manual_demo_cfg
        (manual_process_keys manual_demo_cfg manual_prev_state [MKey.num 0])
        3).target_is_growing = decide ((2:ℚ) < 3) :=
  ⟨(previous_width_persists_across_activation manual_demo_cfg
      manual_prev_state 0 3 2 rfl).1,
   (previous_width_persists_across_activation manual_demo_cfg
      manual_prev_state 0 3 2 rfl).2 (by decide)⟩

/-- C9 (amended): a direction is marked finished exactly on the first
frame `n` with `n · k` strictly greater than `2 B` (the full travel from
the starting edge across the boundary), so the number of frames to finish
is `⌊2B/k⌋ + 1`, not `⌈2B/k⌉` when `k` divides `2B`. -/
theorem validation_direction_finish_frames (d : MoveDir) (k xm ym : ℚ)
    (hk : 0 < k) (hx : 0 < xm) (hy : 0 < ym) :
    (∀ n : Nat, (smoothly_move_target_iter d k xm ym n).2 = true
        ↔ 2 * movement_bound d xm ym < n * k) ∧
    (smoothly_move_target_iter d k xm ym
        ((⌊2 * movement_bound d xm ym / k⌋).toNat + 1)).2 = true ∧
    ∀ m, m < (⌊2 * movement_bound d xm ym / k⌋).toNat + 1 →
      (smoothly_move_target_iter d k xm ym m).2 = false :=
  ⟨fun n => iter_finished_iff d k xm ym hx hy n,
   (direction_finish_frame d k xm ym hk hx hy).1,
   (direction_finish_frame d k xm ym hk hx hy).2⟩

/-- Counterexample to C9 as stated: with the script's constants
(`step = 5`, horizontal boundary `600`), `⌈2B/k⌉ = 240`, but the target
has not finished after 240 frames; it finishes on frame 241, because the
boundary crossing is strict. -/
theorem validation_frames_ceil_counterexample :
    ⌈(2 * movement_bound .LtR 600 400 / 5 : ℚ)⌉ = 240 ∧
    (smoothly_move_target_iter .LtR 5 600 400 240).2 = false ∧
    (smoothly_move_target_iter .LtR 5 600 400 241).2 = true := by
  refine ⟨by norm_num [movement_bound], ?_, ?_⟩
  · cases hb : (smoothly_move_target_iter .LtR 5 600 400 240).2 with
    | false => rfl
    | true =>
      exfalso
      have h := (iter_finished_iff .LtR 5 600 400 (by norm_num)
        (by norm_num) 240).1 hb
      norm_num [movement_bound] at h
  · exact (iter_finished_iff .LtR 5 600 400 (by norm_num)
      (by norm_num) 241).2 (by norm_num [movement_bound])

/-- Witness for C9 (amended) with the script's constants. -/
theorem validation_direction_finish_frames_witness :
    (smoothly_move_target_iter .LtR 5 600 400
        ((⌊2 * movement_bound .LtR 600 400 / 5⌋).toNat + 1)).2 = true :=
  (validation_direction_finish_frames .LtR 5 600 400 (by norm_num)
    (by norm_num) (by norm_num)).2.1

/-- C1: with all 5 configured points in the retry set and a width trace
giving each point two grow/shrink cycles and a final shrunk frame, the
automated loop collects each point exactly once, activates the points in
reverse configuration order (the position queue is popped back-to-front),
and terminates once the queue is empty and no point is active. -/
theorem automated_calibration_end_to_end :
    (automated_calibration_run auto_demo_cfg auto_demo_widths
        auto_demo_trace).collected = [4, 3, 2, 1, 0] ∧
    (automated_calibration_run auto_demo_cfg auto_demo_widths
        auto_demo_trace).activated = [4, 3, 2, 1, 0] ∧
    (automated_calibration_run auto_demo_cfg auto_demo_widths
        auto_demo_trace).in_calibration = false := by
  have h0 : automated_calibration_init auto_demo_widths
      = ({ collect_when_shrunk := false,
           allow_grow_sound := true,
           target_is_growing := false,
           previous_frame_width := none,
           current_point_index := -1,
           pos_nums := [1, 2, 3, 4, 5],
           target_activated := false,
           cycle_counter := 0,
           in_calibration := true,
           stim_widths := [4, 4, 4, 4, 4],
           collected := [],
           activated := [],
           grow_plays := 0,
           grow_stops := 0 } : AutoState) := by
    norm_num [automated_calibration_init, auto_demo_widths, List.range']
  have h1 : automated_calibration_step auto_demo_cfg
      ({ collect_when_shrunk := false,
         allow_grow_sound := true,
         target_is_growing := false,
         previous_frame_width := none,
         current_point_index := -1,
         pos_nums := [1, 2, 3, 4, 5],
         target_activated := false,
         cycle_counter := 0,
         in_calibration := true,
         stim_widths := [4, 4, 4, 4, 4],
         collected := [],
         activated := [],
         grow_plays := 0,
         grow_stops := 0 } : AutoState)
      (4 : ℚ)
      =
      ({ collect_when_shrunk := false,
         allow_grow_sound := true,
         target_is_growing := false,
         previous_frame_width := some 4,
         current_point_index := 4,
         pos_nums := [1, 2, 3, 4],
         target_activated := true,
         cycle_counter := 0,
         in_calibration := true,
         stim_widths := [4, 4, 4, 4, 4],
         collected := [],
         activated := [4],
         grow_plays := 0,
         grow_stops := 0 } : AutoState)
      := by
    norm_num [automated_calibration_step, auto_activate, auto_draw_phase,
      auto_collect_phase, auto_finish_phase, pyGet, pySet, auto_demo_cfg,
      List.set, List.getD, List.get?] <;> simp
  have h2 : automated_calibration_step auto_demo_cfg
      ({ collect_when_shrunk := false,
         allow_grow_sound := true,
         target_is_growing := false,
         previous_frame_width := some 4,
         current_point_index := 4,
         pos_nums := [1, 2, 3, 4],
         target_activated := true,
         cycle_counter := 0,
         in_calibration := true,
         stim_widths := [4, 4, 4, 4, 4],
         collected := [],
         activated := [4],
         grow_plays := 0,
         grow_stops := 0 } : AutoState)
      (5 : ℚ)
      =
      ({ collect_when_shrunk := false,
         allow_grow_sound := false,
         target_is_growing := true,
         previous_frame_width := some 5,
         current_point_index := 4,
         pos_nums := [1, 2, 3, 4],
         target_activated := true,
         cycle_counter := 0,
         in_calibration := true,
         stim_widths := [4, 4, 4, 4, 5],
         collected := [],
         activated := [4],
         grow_plays := 1,
         grow_stops := 0 } : AutoState)
      := by
    norm_num [automated_calibration_step, auto_activate, auto_draw_phase,
      auto_collect_phase, auto_finish_phase, pyGet, pySet, auto_demo_cfg,
      List.set, List.getD, List.get?] <;> simp
  have h3 : automated_calibration_step auto_demo_cfg
      ({ collect_when_shrunk := false,
         allow_grow_sound := false,
         target_is_growing := true,
         previous_frame_width := some 5,
         current_point_index := 4,
         pos_nums := [1, 2, 3, 4],
         target_activated := true,
         cycle_counter := 0,
         in_calibration := true,
         stim_widths := [4, 4, 4, 4, 5],
         collected := [],
         activated := [4],
         grow_plays := 1,
         grow_stops := 0 } : AutoState)
      (4 : ℚ)
      =
      ({ collect_when_shrunk := false,
         allow_grow_sound := true,
         target_is_growing := false,
         previous_frame_width := some 4,
         current_point_index := 4,
         pos_nums := [1, 2, 3, 4],
         target_activated := true,
         cycle_counter := 1,
         in_calibration := true,
         stim_widths := [4, 4, 4, 4, 4],
         collected := [],
         activated := [4],
         grow_plays := 1,
         grow_stops := 1 } : AutoState)
      := by
    norm_num [automated_calibration_step, auto_activate, auto_draw_phase,
      auto_collect_phase, auto_finish_phase, pyGet, pySet, auto_demo_cfg,
      List.set, List.getD, List.get?] <;> simp
  have h4 : automated_calibration_step auto_demo_cfg
      ({ collect_when_shrunk := false,
         allow_grow_sound := true,
         target_is_growing := false,
         previous_frame_width := some 4,
         current_point_index := 4,
         pos_nums := [1, 2, 3, 4],
         target_activated := true,
         cycle_counter := 1,
         in_calibration := true,
         stim_widths := [4, 4, 4, 4, 4],
         collected := [],
         activated := [4],
         grow_plays := 1,
         grow_stops := 1 } : AutoState)
      (5 : ℚ)
      =
      ({ collect_when_shrunk := false,
         allow_grow_sound := false,
         target_is_growing := true,
         previous_frame_width := some 5,
         current_point_index := 4,
         pos_nums := [1, 2, 3, 4],
         target_activated := true,
         cycle_counter := 1,
         in_calibration := true,
         stim_widths := [4, 4, 4, 4, 5],
         collected := [],
         activated := [4],
         grow_plays := 2,
         grow_stops := 1 } : AutoState)
      := by
    norm_num [automated_calibration_step, auto_activate, auto_draw_phase,
      auto_collect_phase, auto_finish_phase, pyGet, pySet, auto_demo_cfg,
      List.set, List.getD, List.get?] <;> simp
  have h5 : automated_calibration_step auto_demo_cfg
      ({ collect_when_shrunk := false,
         allow_grow_sound := false,
         target_is_growing := true,
         previous_frame_width := some 5,
         current_point_index := 4,
         pos_nums := [1, 2, 3, 4],
         target_activated := true,
         cycle_counter := 1,
         in_calibration := true,
         stim_widths := [4, 4, 4, 4, 5],
         collected := [],
         activated := [4],
         grow_plays := 2,
         grow_stops := 1 } : AutoState)
      (1 : ℚ)
      =
      ({ collect_when_shrunk := false,
         allow_grow_sound := true,
         target_is_growing := false,
         previous_frame_width := some 1,
         current_point_index := -1,
         pos_nums := [1, 2, 3, 4],
         target_activated := false,
         cycle_counter := 0,
         in_calibration := true,
         stim_widths := [4, 4, 4, 4, 1],
         collected := [4],
         activated := [4],
         grow_plays := 2,
         grow_stops := 2 } : AutoState)
      := by
    norm_num [automated_calibration_step, auto_activate, auto_draw_phase,
      auto_collect_phase, auto_finish_phase, pyGet, pySet, auto_demo_cfg,
      List.set, List.getD, List.get?] <;> simp
  have h6 : automated_calibration_step auto_demo_cfg
      ({ collect_when_shrunk := false,
         allow_grow_sound := true,
         target_is_growing := false,
         previous_frame_width := some 1,
         current_point_index := -1,
         pos_nums := [1, 2, 3, 4],
         target_activated := false,
         cycle_counter := 0,
         in_calibration := true,
         stim_widths := [4, 4, 4, 4, 1],
         collected := [4],
         activated := [4],
         grow_plays := 2,
         grow_stops := 2 } : AutoState)
      (4 : ℚ)
      =
      ({ collect_when_shrunk := false,
         allow_grow_sound := false,
         target_is_growing := true,
         previous_frame_width := some 4,
         current_point_index := 3,
         pos_nums := [1, 2, 3],
         target_activated := true,
         cycle_counter := 0,
         in_calibration := true,
         stim_widths := [4, 4, 4, 4, 1],
         collected := [4],
         activated := [4, 3],
         grow_plays := 3,
         grow_stops := 2 } : AutoState)
      := by
    norm_num [automated_calibration_step, auto_activate, auto_draw_phase,
      auto_collect_phase, auto_finish_phase, pyGet, pySet, auto_demo_cfg,
      List.set, List.getD, List.get?] <;> simp
  have h7 : automated_calibration_step auto_demo_cfg
      ({ collect_when_shrunk := false,
         allow_grow_sound := false,
         target_is_growing := true,
         previous_frame_width := some 4,
         current_point_index := 3,
         pos_nums := [1, 2, 3],
         target_activated := true,
         cycle_counter := 0,
         in_calibration := true,
         stim_widths := [4, 4, 4, 4, 1],
         collected := [4],
         activated := [4, 3],
         grow_plays := 3,
         grow_stops := 2 } : AutoState)
      (5 : ℚ)
      =
      ({ collect_when_shrunk := false,
         allow_grow_sound := false,
         target_is_growing := true,
         previous_frame_width := some 5,
         current_point_index := 3,
         pos_nums := [1, 2, 3],
         target_activated := true,
         cycle_counter := 0,
         in_calibration := true,
         stim_widths := [4, 4, 4, 5, 1],
         collected := [4],
         activated := [4, 3],
         grow_plays := 3,
         grow_stops := 2 } : AutoState)
      := by
    norm_num [automated_calibration_step, auto_activate, auto_draw_phase,
      auto_collect_phase, auto_finish_phase, pyGet, pySet, auto_demo_cfg,
      List.set, List.getD, List.get?] <;> simp
  have h8 : automated_calibration_step auto_demo_cfg
      ({ collect_when_shrunk := false,
         allow_grow_sound := false,
         target_is_growing := true,
         previous_frame_width := some 5,
         current_point_index := 3,
         pos_nums := [1, 2, 3],
         target_activated := true,
         cycle_counter := 0,
         in_calibration := true,
         stim_widths := [4, 4, 4, 5, 1],
         collected := [4],
         activated := [4, 3],
         grow_plays := 3,
         grow_stops := 2 } : AutoState)
      (4 : ℚ)
      =
      ({ collect_when_shrunk := false,
         allow_grow_sound := true,
         target_is_growing := false,
         previous_frame_width := some 4,
         current_point_index := 3,
         pos_nums := [1, 2, 3],
         target_activated := true,
         cycle_counter := 1,
         in_calibration := true,
         stim_widths := [4, 4, 4, 4, 1],
         collected := [4],
         activated := [4, 3],
         grow_plays := 3,
         grow_stops := 3 } : AutoState)
      := by
    norm_num [automated_calibration_step, auto_activate, auto_draw_phase,
      auto_collect_phase, auto_finish_phase, pyGet, pySet, auto_demo_cfg,
      List.set, List.getD, List.get?] <;> simp
  have h9 : automated_calibration_step auto_demo_cfg
      ({ collect_when_shrunk := false,
         allow_grow_sound := true,
         target_is_growing := false,
         previous_frame_width := some 4,
         current_point_index := 3,
         pos_nums := [1, 2, 3],
         target_activated := true,
         cycle_counter := 1,
         in_calibration := true,
         stim_widths := [4, 4, 4, 4, 1],
         collected := [4],
         activated := [4, 3],
         grow_plays := 3,
         grow_stops := 3 } : AutoState)
      (5 : ℚ)
      =
      ({ collect_when_shrunk := false,
         allow_grow_sound := false,
         target_is_growing := true,
         previous_frame_width := some 5,
         current_point_index := 3,
         pos_nums := [1, 2, 3],
         target_activated := true,
         cycle_counter := 1,
         in_calibration := true,
         stim_widths := [4, 4, 4, 5, 1],
         collected := [4],
         activated := [4, 3],
         grow_plays := 4,
         grow_stops := 3 } : AutoState)
      := by
    norm_num [automated_calibration_step, auto_activate, auto_draw_phase,
      auto_collect_phase, auto_finish_phase, pyGet, pySet, auto_demo_cfg,
      List.set, List.getD, List.get?] <;> simp
  have h10 : automated_calibration_step auto_demo_cfg
      ({ collect_when_shrunk := false,
         allow_grow_sound := false,
         target_is_growing := true,
         previous_frame_width := some 5,
         current_point_index := 3,
         pos_nums := [1, 2, 3],
         target_activated := true,
         cycle_counter := 1,
         in_calibration := true,
         stim_widths := [4, 4, 4, 5, 1],
         collected := [4],
         activated := [4, 3],
         grow_plays := 4,
         grow_stops := 3 } : AutoState)
      (1 : ℚ)
      =
      ({ collect_when_shrunk := false,
         allow_grow_sound := true,
         target_is_growing := false,
         previous_frame_width := some 1,
         current_point_index := -1,
         pos_nums := [1, 2, 3],
         target_activated := false,
         cycle_counter := 0,
         in_calibration := true,
         stim_widths := [4, 4, 4, 1, 1],
         collected := [4, 3],
         activated := [4, 3],
         grow_plays := 4,
         grow_stops := 4 } : AutoState)
      := by
    norm_num [automated_calibration_step, auto_activate, auto_draw_phase,
      auto_collect_phase, auto_finish_phase, pyGet, pySet, auto_demo_cfg,
      List.set, List.getD, List.get?] <;> simp
  have h11 : automated_calibration_step auto_demo_cfg
      ({ collect_when_shrunk := false,
         allow_grow_sound := true,
         target_is_growing := false,
         previous_frame_width := some 1,
         current_point_index := -1,
         pos_nums := [1, 2, 3],
         target_activated := false,
         cycle_counter := 0,
         in_calibration := true,
         stim_widths := [4, 4, 4, 1, 1],
         collected := [4, 3],
         activated := [4, 3],
         grow_plays := 4,
         grow_stops := 4 } : AutoState)
      (4 : ℚ)
      =
      ({ collect_when_shrunk := false,
         allow_grow_sound := false,
         target_is_growing := true,
         previous_frame_width := some 4,
         current_point_index := 2,
         pos_nums := [1, 2],
         target_activated := true,
         cycle_counter := 0,
         in_calibration := true,
         stim_widths := [4, 4, 4, 1, 1],
         collected := [4, 3],
         activated := [4, 3, 2],
         grow_plays := 5,
         grow_stops := 4 } : AutoState)
      := by
    norm_num [automated_calibration_step, auto_activate, auto_draw_phase,
      auto_collect_phase, auto_finish_phase, pyGet, pySet, auto_demo_cfg,
      List.set, List.getD, List.get?] <;> simp
  have h12 : automated_calibration_step auto_demo_cfg
      ({ collect_when_shrunk := false,
         allow_grow_sound := false,
         target_is_growing := true,
         previous_frame_width := some 4,
         current_point_index := 2,
         pos_nums := [1, 2],
         target_activated := true,
         cycle_counter := 0,
         in_calibration := true,
         stim_widths := [4, 4, 4, 1, 1],
         collected := [4, 3],
         activated := [4, 3, 2],
         grow_plays := 5,
         grow_stops := 4 } : AutoState)
      (5 : ℚ)
      =
      ({ collect_when_shrunk := false,
         allow_grow_sound := false,
         target_is_growing := true,
         previous_frame_width := some 5,
         current_point_index := 2,
         pos_nums := [1, 2],
         target_activated := true,
         cycle_counter := 0,
         in_calibration := true,
         stim_widths := [4, 4, 5, 1, 1],
         collected := [4, 3],
         activated := [4, 3, 2],
         grow_plays := 5,
         grow_stops := 4 } : AutoState)
      := by
    norm_num [automated_calibration_step, auto_activate, auto_draw_phase,
      auto_collect_phase, auto_finish_phase, pyGet, pySet, auto_demo_cfg,
      List.set, List.getD, List.get?] <;> simp
  have h13 : automated_calibration_step auto_demo_cfg
      ({ collect_when_shrunk := false,
         allow_grow_sound := false,
         target_is_growing := true,
         previous_frame_width := some 5,
         current_point_index := 2,
         pos_nums := [1, 2],
         target_activated := true,
         cycle_counter := 0,
         in_calibration := true,
         stim_widths := [4, 4, 5, 1, 1],
         collected := [4, 3],
         activated := [4, 3, 2],
         grow_plays := 5,
         grow_stops := 4 } : AutoState)
      (4 : ℚ)
      =
      ({ collect_when_shrunk := false,
         allow_grow_sound := true,
         target_is_growing := false,
         previous_frame_width := some 4,
         current_point_index := 2,
         pos_nums := [1, 2],
         target_activated := true,
         cycle_counter := 1,
         in_calibration := true,
         stim_widths := [4, 4, 4, 1, 1],
         collected := [4, 3],
         activated := [4, 3, 2],
         grow_plays := 5,
         grow_stops := 5 } : AutoState)
      := by
    norm_num [automated_calibration_step, auto_activate, auto_draw_phase,
      auto_collect_phase, auto_finish_phase, pyGet, pySet, auto_demo_cfg,
      List.set, List.getD, List.get?] <;> simp
  have h14 : automated_calibration_step auto_demo_cfg
      ({ collect_when_shrunk := false,
         allow_grow_sound := true,
         target_is_growing := false,
         previous_frame_width := some 4,
         current_point_index := 2,
         pos_nums := [1, 2],
         target_activated := true,
         cycle_counter := 1,
         in_calibration := true,
         stim_widths := [4, 4, 4, 1, 1],
         collected := [4, 3],
         activated := [4, 3, 2],
         grow_plays := 5,
         grow_stops := 5 } : AutoState)
      (5 : ℚ)
      =
      ({ collect_when_shrunk := false,
         allow_grow_sound := false,
         target_is_growing := true,
         previous_frame_width := some 5,
         current_point_index := 2,
         pos_nums := [1, 2],
         target_activated := true,
         cycle_counter := 1,
         in_calibration := true,
         stim_widths := [4, 4, 5, 1, 1],
         collected := [4, 3],
         activated := [4, 3, 2],
         grow_plays := 6,
         grow_stops := 5 } : AutoState)
      := by
    norm_num [automated_calibration_step, auto_activate, auto_draw_phase,
      auto_collect_phase, auto_finish_phase, pyGet, pySet, auto_demo_cfg,
      List.set, List.getD, List.get?] <;> simp
  have h15 : automated_calibration_step auto_demo_cfg
      ({ collect_when_shrunk := false,
         allow_grow_sound := false,
         target_is_growing := true,
         previous_frame_width := some 5,
         current_point_index := 2,
         pos_nums := [1, 2],
         target_activated := true,
         cycle_counter := 1,
         in_calibration := true,
         stim_widths := [4, 4, 5, 1, 1],
         collected := [4, 3],
         activated := [4, 3, 2],
         grow_plays := 6,
         grow_stops := 5 } : AutoState)
      (1 : ℚ)
      =
      ({ collect_when_shrunk := false,
         allow_grow_sound := true,
         target_is_growing := false,
         previous_frame_width := some 1,
         current_point_index := -1,
         pos_nums := [1, 2],
         target_activated := false,
         cycle_counter := 0,
         in_calibration := true,
         stim_widths := [4, 4, 1, 1, 1],
         collected := [4, 3, 2],
         activated := [4, 3, 2],
         grow_plays := 6,
         grow_stops := 6 } : AutoState)
      := by
    norm_num [automated_calibration_step, auto_activate, auto_draw_phase,
      auto_collect_phase, auto_finish_phase, pyGet, pySet, auto_demo_cfg,
      List.set, List.getD, List.get?] <;> simp
  have h16 : automated_calibration_step auto_demo_cfg
      ({ collect_when_shrunk := false,
         allow_grow_sound := true,
         target_is_growing := false,
         previous_frame_width := some 1,
         current_point_index := -1,
         pos_nums := [1, 2],
         target_activated := false,
         cycle_counter := 0,
         in_calibration := true,
         stim_widths := [4, 4, 1, 1, 1],
         collected := [4, 3, 2],
         activated := [4, 3, 2],
         grow_plays := 6,
         grow_stops := 6 } : AutoState)
      (4 : ℚ)
      =
      ({ collect_when_shrunk := false,
         allow_grow_sound := false,
         target_is_growing := true,
         previous_frame_width := some 4,
         current_point_index := 1,
         pos_nums := [1],
         target_activated := true,
         cycle_counter := 0,
         in_calibration := true,
         stim_widths := [4, 4, 1, 1, 1],
         collected := [4, 3, 2],
         activated := [4, 3, 2, 1],
         grow_plays := 7,
         grow_stops := 6 } : AutoState)
      := by
    norm_num [automated_calibration_step, auto_activate, auto_draw_phase,
      auto_collect_phase, auto_finish_phase, pyGet, pySet, auto_demo_cfg,
      List.set, List.getD, List.get?] <;> simp
  have h17 : automated_calibration_step auto_demo_cfg
      ({ collect_when_shrunk := false,
         allow_grow_sound := false,
         target_is_growing := true,
         previous_frame_width := some 4,
         current_point_index := 1,
         pos_nums := [1],
         target_activated := true,
         cycle_counter := 0,
         in_calibration := true,
         stim_widths := [4, 4, 1, 1, 1],
         collected := [4, 3, 2],
         activated := [4, 3, 2, 1],
         grow_plays := 7,
         grow_stops := 6 } : AutoState)
      (5 : ℚ)
      =
      ({ collect_when_shrunk := false,
         allow_grow_sound := false,
         target_is_growing := true,
         previous_frame_width := some 5,
         current_point_index := 1,
         pos_nums := [1],
         target_activated := true,
         cycle_counter := 0,
         in_calibration := true,
         stim_widths := [4, 5, 1, 1, 1],
         collected := [4, 3, 2],
         activated := [4, 3, 2, 1],
         grow_plays := 7,
         grow_stops := 6 } : AutoState)
      := by
    norm_num [automated_calibration_step, auto_activate, auto_draw_phase,
      auto_collect_phase, auto_finish_phase, pyGet, pySet, auto_demo_cfg,
      List.set, List.getD, List.get?] <;> simp
  have h18 : automated_calibration_step auto_demo_cfg
      ({ collect_when_shrunk := false,
         allow_grow_sound := false,
         target_is_growing := true,
         previous_frame_width := some 5,
         current_point_index := 1,
         pos_nums := [1],
         target_activated := true,
         cycle_counter := 0,
         in_calibration := true,
         stim_widths := [4, 5, 1, 1, 1],
         collected := [4, 3, 2],
         activated := [4, 3, 2, 1],
         grow_plays := 7,
         grow_stops := 6 } : AutoState)
      (4 : ℚ)
      =
      ({ collect_when_shrunk := false,
         allow_grow_sound := true,
         target_is_growing := false,
         previous_frame_width := some 4,
         current_point_index := 1,
         pos_nums := [1],
         target_activated := true,
         cycle_counter := 1,
         in_calibration := true,
         stim_widths := [4, 4, 1, 1, 1],
         collected := [4, 3, 2],
         activated := [4, 3, 2, 1],
         grow_plays := 7,
         grow_stops := 7 } : AutoState)
      := by
    norm_num [automated_calibration_step, auto_activate, auto_draw_phase,
      auto_collect_phase, auto_finish_phase, pyGet, pySet, auto_demo_cfg,
      List.set, List.getD, List.get?] <;> simp
  have h19 : automated_calibration_step auto_demo_cfg
      ({ collect_when_shrunk := false,
         allow_grow_sound := true,
         target_is_growing := false,
         previous_frame_width := some 4,
         current_point_index := 1,
         pos_nums := [1],
         target_activated := true,
         cycle_counter := 1,
         in_calibration := true,
         stim_widths := [4, 4, 1, 1, 1],
         collected := [4, 3, 2],
         activated := [4, 3, 2, 1],
         grow_plays := 7,
         grow_stops := 7 } : AutoState)
      (5 : ℚ)
      =
      ({ collect_when_shrunk := false,
         allow_grow_sound := false,
         target_is_growing := true,
         previous_frame_width := some 5,
         current_point_index := 1,
         pos_nums := [1],
         target_activated := true,
         cycle_counter := 1,
         in_calibration := true,
         stim_widths := [4, 5, 1, 1, 1],
         collected := [4, 3, 2],
         activated := [4, 3, 2, 1],
         grow_plays := 8,
         grow_stops := 7 } : AutoState)
      := by
    norm_num [automated_calibration_step, auto_activate, auto_draw_phase,
      auto_collect_phase, auto_finish_phase, pyGet, pySet, auto_demo_cfg,
      List.set, List.getD, List.get?] <;> simp
  have h20 : automated_calibration_step auto_demo_cfg
      ({ collect_when_shrunk := false,
         allow_grow_sound := false,
         target_is_growing := true,
         previous_frame_width := some 5,
         current_point_index := 1,
         pos_nums := [1],
         target_activated := true,
         cycle_counter := 1,
         in_calibration := true,
         stim_widths := [4, 5, 1, 1, 1],
         collected := [4, 3, 2],
         activated := [4, 3, 2, 1],
         grow_plays := 8,
         grow_stops := 7 } : AutoState)
      (1 : ℚ)
      =
      ({ collect_when_shrunk := false,
         allow_grow_sound := true,
         target_is_growing := false,
         previous_frame_width := some 1,
         current_point_index := -1,
         pos_nums := [1],
         target_activated := false,
         cycle_counter := 0,
         in_calibration := true,
         stim_widths := [4, 1, 1, 1, 1],
         collected := [4, 3, 2, 1],
         activated := [4, 3, 2, 1],
         grow_plays := 8,
         grow_stops := 8 } : AutoState)
      := by
    norm_num [automated_calibration_step, auto_activate, auto_draw_phase,
      auto_collect_phase, auto_finish_phase, pyGet, pySet, auto_demo_cfg,
      List.set, List.getD, List.get?] <;> simp
  have h21 : automated_calibration_step auto_demo_cfg
      ({ collect_when_shrunk := false,
         allow_grow_sound := true,
         target_is_growing := false,
         previous_frame_width := some 1,
         current_point_index := -1,
         pos_nums := [1],
         target_activated := false,
         cycle_counter := 0,
         in_calibration := true,
         stim_widths := [4, 1, 1, 1, 1],
         collected := [4, 3, 2, 1],
         activated := [4, 3, 2, 1],
         grow_plays := 8,
         grow_stops := 8 } : AutoState)
      (4 : ℚ)
      =
      ({ collect_when_shrunk := false,
         allow_grow_sound := false,
         target_is_growing := true,
         previous_frame_width := some 4,
         current_point_index := 0,
         pos_nums := [],
         target_activated := true,
         cycle_counter := 0,
         in_calibration := true,
         stim_widths := [4, 1, 1, 1, 1],
         collected := [4, 3, 2, 1],
         activated := [4, 3, 2, 1, 0],
         grow_plays := 9,
         grow_stops := 8 } : AutoState)
      := by
    norm_num [automated_calibration_step, auto_activate, auto_draw_phase,
      auto_collect_phase, auto_finish_phase, pyGet, pySet, auto_demo_cfg,
      List.set, List.getD, List.get?] <;> simp
  have h22 : automated_calibration_step auto_demo_cfg
      ({ collect_when_shrunk := false,
         allow_grow_sound := false,
         target_is_growing := true,
         previous_frame_width := some 4,
         current_point_index := 0,
         pos_nums := [],
         target_activated := true,
         cycle_counter := 0,
         in_calibration := true,
         stim_widths := [4, 1, 1, 1, 1],
         collected := [4, 3, 2, 1],
         activated := [4, 3, 2, 1, 0],
         grow_plays := 9,
         grow_stops := 8 } : AutoState)
      (5 : ℚ)
      =
      ({ collect_when_shrunk := false,
         allow_grow_sound := false,
         target_is_growing := true,
         previous_frame_width := some 5,
         current_point_index := 0,
         pos_nums := [],
         target_activated := true,
         cycle_counter := 0,
         in_calibration := true,
         stim_widths := [5, 1, 1, 1, 1],
         collected := [4, 3, 2, 1],
         activated := [4, 3, 2, 1, 0],
         grow_plays := 9,
         grow_stops := 8 } : AutoState)
      := by
    norm_num [automated_calibration_step, auto_activate, auto_draw_phase,
      auto_collect_phase, auto_finish_phase, pyGet, pySet, auto_demo_cfg,
      List.set, List.getD, List.get?] <;> simp
  have h23 : automated_calibration_step auto_demo_cfg
      ({ collect_when_shrunk := false,
         allow_grow_sound := false,
         target_is_growing := true,
         previous_frame_width := some 5,
         current_point_index := 0,
         pos_nums := [],
         target_activated := true,
         cycle_counter := 0,
         in_calibration := true,
         stim_widths := [5, 1, 1, 1, 1],
         collected := [4, 3, 2, 1],
         activated := [4, 3, 2, 1, 0],
         grow_plays := 9,
         grow_stops := 8 } : AutoState)
      (4 : ℚ)
      =
      ({ collect_when_shrunk := false,
         allow_grow_sound := true,
         target_is_growing := false,
         previous_frame_width := some 4,
         current_point_index := 0,
         pos_nums := [],
         target_activated := true,
         cycle_counter := 1,
         in_calibration := true,
         stim_widths := [4, 1, 1, 1, 1],
         collected := [4, 3, 2, 1],
         activated := [4, 3, 2, 1, 0],
         grow_plays := 9,
         grow_stops := 9 } : AutoState)
      := by
    norm_num [automated_calibration_step, auto_activate, auto_draw_phase,
      auto_collect_phase, auto_finish_phase, pyGet, pySet, auto_demo_cfg,
      List.set, List.getD, List.get?] <;> simp
  have h24 : automated_calibration_step auto_demo_cfg
      ({ collect_when_shrunk := false,
         allow_grow_sound := true,
         target_is_growing := false,
         previous_frame_width := some 4,
         current_point_index := 0,
         pos_nums := [],
         target_activated := true,
         cycle_counter := 1,
         in_calibration := true,
         stim_widths := [4, 1, 1, 1, 1],
         collected := [4, 3, 2, 1],
         activated := [4, 3, 2, 1, 0],
         grow_plays := 9,
         grow_stops := 9 } : AutoState)
      (5 : ℚ)
      =
      ({ collect_when_shrunk := false,
         allow_grow_sound := false,
         target_is_growing := true,
         previous_frame_width := some 5,
         current_point_index := 0,
         pos_nums := [],
         target_activated := true,
         cycle_counter := 1,
         in_calibration := true,
         stim_widths := [5, 1, 1, 1, 1],
         collected := [4, 3, 2, 1],
         activated := [4, 3, 2, 1, 0],
         grow_plays := 10,
         grow_stops := 9 } : AutoState)
      := by
    norm_num [automated_calibration_step, auto_activate, auto_draw_phase,
      auto_collect_phase, auto_finish_phase, pyGet, pySet, auto_demo_cfg,
      List.set, List.getD, List.get?] <;> simp
  have h25 : automated_calibration_step auto_demo_cfg
      ({ collect_when_shrunk := false,
         allow_grow_sound := false,
         target_is_growing := true,
         previous_frame_width := some 5,
         current_point_index := 0,
         pos_nums := [],
         target_activated := true,
         cycle_counter := 1,
         in_calibration := true,
         stim_widths := [5, 1, 1, 1, 1],
         collected := [4, 3, 2, 1],
         activated := [4, 3, 2, 1, 0],
         grow_plays := 10,
         grow_stops := 9 } : AutoState)
      (1 : ℚ)
      =
      ({ collect_when_shrunk := false,
         allow_grow_sound := true,
         target_is_growing := false,
         previous_frame_width := some 1,
         current_point_index := -1,
         pos_nums := [],
         target_activated := false,
         cycle_counter := 0,
         in_calibration := false,
         stim_widths := [1, 1, 1, 1, 1],
         collected := [4, 3, 2, 1, 0],
         activated := [4, 3, 2, 1, 0],
         grow_plays := 10,
         grow_stops := 10 } : AutoState)
      := by
    norm_num [automated_calibration_step, auto_activate, auto_draw_phase,
      auto_collect_phase, auto_finish_phase, pyGet, pySet, auto_demo_cfg,
      List.set, List.getD, List.get?] <;> simp
  have hrun : automated_calibration_run auto_demo_cfg auto_demo_widths
      auto_demo_trace
      = ({ collect_when_shrunk := false,
           allow_grow_sound := true,
           target_is_growing := false,
           previous_frame_width := some 1,
           current_point_index := -1,
           pos_nums := [],
           target_activated := false,
           cycle_counter := 0,
           in_calibration := false,
           stim_widths := [1, 1, 1, 1, 1],
           collected := [4, 3, 2, 1, 0],
           activated := [4, 3, 2, 1, 0],
           grow_plays := 10,
           grow_stops := 10 } : AutoState) := by
    show auto_loop auto_demo_cfg auto_demo_trace
      (automated_calibration_init auto_demo_widths) = _
    rw [h0]
    simp only [auto_demo_trace, auto_loop, h1, h2, h3, h4, h5, h6, h7, h8, h9, h10, h11, h12, h13, h14, h15, h16, h17, h18, h19, h20, h21, h22, h23, h24, h25, if_true]
  rw [hrun]
  exact ⟨rfl, rfl, rfl⟩

/-- Witness for C2: after the trace `[4, 5, 4, 5, 4]` the first point's
collection trigger is armed and the cycle counter has reached the
threshold of 2. -/
theorem automated_collection_threshold_witness :
    (automated_calibration_run auto_demo_cfg auto_demo_widths
        auto_arm_trace).collect_when_shrunk = true ∧
    auto_demo_cfg.cycles_before_calibrate
      ≤ (automated_calibration_run auto_demo_cfg auto_demo_widths
          auto_arm_trace).cycle_counter := by
  have h0 : automated_calibration_init auto_demo_widths
      = ({ collect_when_shrunk := false,
           allow_grow_sound := true,
           target_is_growing := false,
           previous_frame_width := none,
           current_point_index := -1,
           pos_nums := [1, 2, 3, 4, 5],
           target_activated := false,
           cycle_counter := 0,
           in_calibration := true,
           stim_widths := [4, 4, 4, 4, 4],
           collected := [],
           activated := [],
           grow_plays := 0,
           grow_stops := 0 } : AutoState) := by
    norm_num [automated_calibration_init, auto_demo_widths, List.range']
  have ha1 : automated_calibration_step auto_demo_cfg
      ({ collect_when_shrunk := false,
         allow_grow_sound := true,
         target_is_growing := false,
         previous_frame_width := none,
         current_point_index := -1,
         pos_nums := [1, 2, 3, 4, 5],
         target_activated := false,
         cycle_counter := 0,
         in_calibration := true,
         stim_widths := [4, 4, 4, 4, 4],
         collected := [],
         activated := [],
         grow_plays := 0,
         grow_stops := 0 } : AutoState)
      (4 : ℚ)
      =
      ({ collect_when_shrunk := false,
         allow_grow_sound := true,
         target_is_growing := false,
         previous_frame_width := some 4,
         current_point_index := 4,
         pos_nums := [1, 2, 3, 4],
         target_activated := true,
         cycle_counter := 0,
         in_calibration := true,
         stim_widths := [4, 4, 4, 4, 4],
         collected := [],
         activated := [4],
         grow_plays := 0,
         grow_stops := 0 } : AutoState)
      := by
    norm_num [automated_calibration_step, auto_activate, auto_draw_phase,
      auto_collect_phase, auto_finish_phase, pyGet, pySet, auto_demo_cfg,
      List.set, List.getD, List.get?] <;> simp
  have ha2 : automated_calibration_step auto_demo_cfg
      ({ collect_when_shrunk := false,
         allow_grow_sound := true,
         target_is_growing := false,
         previous_frame_width := some 4,
         current_point_index := 4,
         pos_nums := [1, 2, 3, 4],
         target_activated := true,
         cycle_counter := 0,
         in_calibration := true,
         stim_widths := [4, 4, 4, 4, 4],
         collected := [],
         activated := [4],
         grow_plays := 0,
         grow_stops := 0 } : AutoState)
      (5 : ℚ)
      =
      ({ collect_when_shrunk := false,
         allow_grow_sound := false,
         target_is_growing := true,
         previous_frame_width := some 5,
         current_point_index := 4,
         pos_nums := [1, 2, 3, 4],
         target_activated := true,
         cycle_counter := 0,
         in_calibration := true,
         stim_widths := [4, 4, 4, 4, 5],
         collected := [],
         activated := [4],
         grow_plays := 1,
         grow_stops := 0 } : AutoState)
      := by
    norm_num [automated_calibration_step, auto_activate, auto_draw_phase,
      auto_collect_phase, auto_finish_phase, pyGet, pySet, auto_demo_cfg,
      List.set, List.getD, List.get?] <;> simp
  have ha3 : automated_calibration_step auto_demo_cfg
      ({ collect_when_shrunk := false,
         allow_grow_sound := false,
         target_is_growing := true,
         previous_frame_width := some 5,
         current_point_index := 4,
         pos_nums := [1, 2, 3, 4],
         target_activated := true,
         cycle_counter := 0,
         in_calibration := true,
         stim_widths := [4, 4, 4, 4, 5],
         collected := [],
         activated := [4],
         grow_plays := 1,
         grow_stops := 0 } : AutoState)
      (4 : ℚ)
      =
      ({ collect_when_shrunk := false,
         allow_grow_sound := true,
         target_is_growing := false,
         previous_frame_width := some 4,
         current_point_index := 4,
         pos_nums := [1, 2, 3, 4],
         target_activated := true,
         cycle_counter := 1,
         in_calibration := true,
         stim_widths := [4, 4, 4, 4, 4],
         collected := [],
         activated := [4],
         grow_plays := 1,
         grow_stops := 1 } : AutoState)
      := by
    norm_num [automated_calibration_step, auto_activate, auto_draw_phase,
      auto_collect_phase, auto_finish_phase, pyGet, pySet, auto_demo_cfg,
      List.set, List.getD, List.get?] <;> simp
  have ha4 : automated_calibration_step auto_demo_cfg
      ({ collect_when_shrunk := false,
         allow_grow_sound := true,
         target_is_growing := false,
         previous_frame_width := some 4,
         current_point_index := 4,
         pos_nums := [1, 2, 3, 4],
         target_activated := true,
         cycle_counter := 1,
         in_calibration := true,
         stim_widths := [4, 4, 4, 4, 4],
         collected := [],
         activated := [4],
         grow_plays := 1,
         grow_stops := 1 } : AutoState)
      (5 : ℚ)
      =
      ({ collect_when_shrunk := false,
         allow_grow_sound := false,
         target_is_growing := true,
         previous_frame_width := some 5,
         current_point_index := 4,
         pos_nums := [1, 2, 3, 4],
         target_activated := true,
         cycle_counter := 1,
         in_calibration := true,
         stim_widths := [4, 4, 4, 4, 5],
         collected := [],
         activated := [4],
         grow_plays := 2,
         grow_stops := 1 } : AutoState)
      := by
    norm_num [automated_calibration_step, auto_activate, auto_draw_phase,
      auto_collect_phase, auto_finish_phase, pyGet, pySet, auto_demo_cfg,
      List.set, List.getD, List.get?] <;> simp
  have ha5 : automated_calibration_step auto_demo_cfg
      ({ collect_when_shrunk := false,
         allow_grow_sound := false,
         target_is_growing := true,
         previous_frame_width := some 5,
         current_point_index := 4,
         pos_nums := [1, 2, 3, 4],
         target_activated := true,
         cycle_counter := 1,
         in_calibration := true,
         stim_widths := [4, 4, 4, 4, 5],
         collected := [],
         activated := [4],
         grow_plays := 2,
         grow_stops := 1 } : AutoState)
      (4 : ℚ)
      =
      ({ collect_when_shrunk := true,
         allow_grow_sound := true,
         target_is_growing := false,
         previous_frame_width := some 4,
         current_point_index := 4,
         pos_nums := [1, 2, 3, 4],
         target_activated := true,
         cycle_counter := 2,
         in_calibration := true,
         stim_widths := [4, 4, 4, 4, 4],
         collected := [],
         activated := [4],
         grow_plays := 2,
         grow_stops := 2 } : AutoState)
      := by
    norm_num [automated_calibration_step, auto_activate, auto_draw_phase,
      auto_collect_phase, auto_finish_phase, pyGet, pySet, auto_demo_cfg,
      List.set, List.getD, List.get?] <;> simp
  have hrun : automated_calibration_run auto_demo_cfg auto_demo_widths
      auto_arm_trace
      = ({ collect_when_shrunk := true,
           allow_grow_sound := true,
           target_is_growing := false,
           previous_frame_width := some 4,
           current_point_index := 4,
           pos_nums := [1, 2, 3, 4],
           target_activated := true,
           cycle_counter := 2,
           in_calibration := true,
           stim_widths := [4, 4, 4, 4, 4],
           collected := [],
           activated := [4],
           grow_plays := 2,
           grow_stops := 2 } : AutoState) := by
    show auto_loop auto_demo_cfg auto_arm_trace
      (automated_calibration_init auto_demo_widths) = _
    rw [h0]
    simp only [auto_arm_trace, auto_loop, ha1, ha2, ha3, ha4, ha5, if_true]
  refine ⟨by rw [hrun], ?_⟩
  exact (automated_collection_respects_cycle_threshold auto_demo_cfg
    auto_demo_widths auto_arm_trace 0).1 (by rw [hrun])

/-- Counterexample to C5 as stated: on a frame where the collect key and
then the exit key are both received and the target is sufficiently
shrunk, the pending collection request is NOT discarded — the collect
primitive fires for point 0 on the very frame the exit key is processed,
because the exit key only breaks out of the key loop and the rest of the
frame body still runs. -/
theorem manual_exit_frame_collects_counterexample :
    (manual_calibration_run manual_demo_cfg
        [([MKey.num 0], 3), ([MKey.collect, MKey.exit], 1)]
        (manual_calibration_init [4])).collected = [0] ∧
    (manual_calibration_run manual_demo_cfg
        [([MKey.num 0], 3), ([MKey.collect, MKey.exit], 1)]
        (manual_calibration_init [4])).in_calibration = false := by
  have hx0 : manual_calibration_init [4]
      = ({ collect_when_shrunk := false,
           allow_grow_sound := true,
           target_is_growing := false,
           previous_frame_width := none,
           current_point_index := -1,
           in_calibration := true,
           show_att_grabber := false,
           stim_widths := [4],
           collected := [],
           grow_plays := 0,
           grow_stops := 0,
           arm_events := 0 } : ManualState) := by
    norm_num [manual_calibration_init]
  have hx1 : manual_calibration_step manual_demo_cfg
      ({ collect_when_shrunk := false,
         allow_grow_sound := true,
         target_is_growing := false,
         previous_frame_width := none,
         current_point_index := -1,
         in_calibration := true,
         show_att_grabber := false,
         stim_widths := [4],
         collected := [],
         grow_plays := 0,
         grow_stops := 0,
         arm_events := 0 } : ManualState)
      (([MKey.num 0], 3) : List MKey × ℚ)
      =
      ({ collect_when_shrunk := false,
         allow_grow_sound := true,
         target_is_growing := false,
         previous_frame_width := some 3,
         current_point_index := 0,
         in_calibration := true,
         show_att_grabber := false,
         stim_widths := [3],
         collected := [],
         grow_plays := 0,
         grow_stops := 0,
         arm_events := 0 } : ManualState)
      := by
    norm_num [manual_calibration_step, manual_process_keys, manual_draw_phase,
      manual_collect_phase, pyGet, pySet, manual_demo_cfg,
      List.set, List.getD, List.get?] <;> simp
  have hx2 : manual_calibration_step manual_demo_cfg
      ({ collect_when_shrunk := false,
         allow_grow_sound := true,
         target_is_growing := false,
         previous_frame_width := some 3,
         current_point_index := 0,
         in_calibration := true,
         show_att_grabber := false,
         stim_widths := [3],
         collected := [],
         grow_plays := 0,
         grow_stops := 0,
         arm_events := 0 } : ManualState)
      (([MKey.collect, MKey.exit], 1) : List MKey × ℚ)
      =
      ({ collect_when_shrunk := false,
         allow_grow_sound := true,
         target_is_growing := false,
         previous_frame_width := some 1,
         current_point_index := -1,
         in_calibration := false,
         show_att_grabber := false,
         stim_widths := [1],
         collected := [0],
         grow_plays := 0,
         grow_stops := 0,
         arm_events := 1 } : ManualState)
      := by
    norm_num [manual_calibration_step, manual_process_keys, manual_draw_phase,
      manual_collect_phase, pyGet, pySet, manual_demo_cfg,
      List.set, List.getD, List.get?] <;> simp
  have hrun : manual_calibration_run manual_demo_cfg
      [([MKey.num 0], 3), ([MKey.collect, MKey.exit], 1)]
      (manual_calibration_init [4])
      = ({ collect_when_shrunk := false,
           allow_grow_sound := true,
           target_is_growing := false,
           previous_frame_width := some 1,
           current_point_index := -1,
           in_calibration := false,
           show_att_grabber := false,
           stim_widths := [1],
           collected := [0],
           grow_plays := 0,
           grow_stops := 0,
           arm_events := 1 } : ManualState) := by
    rw [hx0]
    simp only [manual_calibration_run, hx1, hx2, if_true]
  rw [hrun]
  exact ⟨rfl, rfl⟩

/-- Counterexample to C7 as stated: after point 0 has animated for two
frames, activating point 1 leaves `previous_frame_width = some 2` (it is
not reset to null), and on the first frame of point 1 the grow cue is
stopped based on that carried-over width. -/
theorem previous_width_not_reset_counterexample :
    (manual_process_keys manual_pair_cfg
        (manual_calibration_run manual_pair_cfg
          [([MKey.num 0], 1), ([], 2)] (manual_calibration_init [4, 4]))
        [MKey.num 1]).previous_frame_width = some 2 ∧
    (manual_calibration_run manual_pair_cfg
        [([MKey.num 0], 1), ([], 2), ([MKey.num 1], 3/2)]
        (manual_calibration_init [4, 4])).grow_stops = 1 ∧
    (manual_calibration_run manual_pair_cfg
        [([MKey.num 0], 1), ([], 2)]
        (manual_calibration_init [4, 4])).grow_stops = 0 := by
  have hy0 : manual_calibration_init [4, 4]
      = ({ collect_when_shrunk := false,
           allow_grow_sound := true,
           target_is_growing := false,
           previous_frame_width := none,
           current_point_index := -1,
           in_calibration := true,
           show_att_grabber := false,
           stim_widths := [4, 4],
           collected := [],
           grow_plays := 0,
           grow_stops := 0,
           arm_events := 0 } : ManualState) := by
    norm_num [manual_calibration_init]
  have hy1 : manual_calibration_step manual_pair_cfg
      ({ collect_when_shrunk := false,
         allow_grow_sound := true,
         target_is_growing := false,
         previous_frame_width := none,
         current_point_index := -1,
         in_calibration := true,
         show_att_grabber := false,
         stim_widths := [4, 4],
         collected := [],
         grow_plays := 0,
         grow_stops := 0,
         arm_events := 0 } : ManualState)
      (([MKey.num 0], 1) : List MKey × ℚ)
      =
      ({ collect_when_shrunk := false,
         allow_grow_sound := true,
         target_is_growing := false,
         previous_frame_width := some 1,
         current_point_index := 0,
         in_calibration := true,
         show_att_grabber := false,
         stim_widths := [1, 4],
         collected := [],
         grow_plays := 0,
         grow_stops := 0,
         arm_events := 0 } : ManualState)
      := by
    norm_num [manual_calibration_step, manual_process_keys, manual_draw_phase,
      manual_collect_phase, pyGet, pySet, manual_pair_cfg,
      List.set, List.getD, List.get?] <;> simp
  have hy2 : manual_calibration_step manual_pair_cfg
      ({ collect_when_shrunk := false,
         allow_grow_sound := true,
         target_is_growing := false,
         previous_frame_width := some 1,
         current_point_index := 0,
         in_calibration := true,
         show_att_grabber := false,
         stim_widths := [1, 4],
         collected := [],
         grow_plays := 0,
         grow_stops := 0,
         arm_events := 0 } : ManualState)
      (([], 2) : List MKey × ℚ)
      =
      ({ collect_when_shrunk := false,
         allow_grow_sound := false,
         target_is_growing := true,
         previous_frame_width := some 2,
         current_point_index := 0,
         in_calibration := true,
         show_att_grabber := false,
         stim_widths := [2, 4],
         collected := [],
         grow_plays := 1,
         grow_stops := 0,
         arm_events := 0 } : ManualState)
      := by
    norm_num [manual_calibration_step, manual_process_keys, manual_draw_phase,
      manual_collect_phase, pyGet, pySet, manual_pair_cfg,
      List.set, List.getD, List.get?] <;> simp
  have hy3 : manual_calibration_step manual_pair_cfg
      ({ collect_when_shrunk := false,
         allow_grow_sound := false,
         target_is_growing := true,
         previous_frame_width := some 2,
         current_point_index := 0,
         in_calibration := true,
         show_att_grabber := false,
         stim_widths := [2, 4],
         collected := [],
         grow_plays := 1,
         grow_stops := 0,
         arm_events := 0 } : ManualState)
      (([MKey.num 1], 3/2) : List MKey × ℚ)
      =
      ({ collect_when_shrunk := false,
         allow_grow_sound := true,
         target_is_growing := false,
         previous_frame_width := some (3/2),
         current_point_index := 1,
         in_calibration := true,
         show_att_grabber := false,
         stim_widths := [2, (3/2)],
         collected := [],
         grow_plays := 1,
         grow_stops := 1,
         arm_events := 0 } : ManualState)
      := by
    norm_num [manual_calibration_step, manual_process_keys, manual_draw_phase,
      manual_collect_phase, pyGet, pySet, manual_pair_cfg,
      List.set, List.getD, List.get?] <;> simp
  have hrun2 : manual_calibration_run manual_pair_cfg
      [([MKey.num 0], 1), ([], 2)] (manual_calibration_init [4, 4])
      = ({ collect_when_shrunk := false,
           allow_grow_sound := false,
           target_is_growing := true,
           previous_frame_width := some 2,
           current_point_index := 0,
           in_calibration := true,
           show_att_grabber := false,
           stim_widths := [2, 4],
           collected := [],
           grow_plays := 1,
           grow_stops := 0,
           arm_events := 0 } : ManualState) := by
    rw [hy0]
    simp only [manual_calibration_run, hy1, hy2, if_true]
  have hrun3 : manual_calibration_run manual_pair_cfg
      [([MKey.num 0], 1), ([], 2), ([MKey.num 1], 3/2)]
      (manual_calibration_init [4, 4])
      = ({ collect_when_shrunk := false,
           allow_grow_sound := true,
           target_is_growing := false,
           previous_frame_width := some (3/2),
           current_point_index := 1,
           in_calibration := true,
           show_att_grabber := false,
           stim_widths := [2, (3/2)],
           collected := [],
           grow_plays := 1,
           grow_stops := 1,
           arm_events := 0 } : ManualState) := by
    rw [hy0]
    simp only [manual_calibration_run, hy1, hy2, hy3, if_true]
  refine ⟨?_, ?_, ?_⟩
  · rw [hrun2]
    rfl
  · rw [hrun3]
  · rw [hrun2]

end EaseCalib
